import Mathlib

/-!
Verification development for the OfferI MCP workflow-orchestration server
(`backend/mcp_server/server.py`, version 1.08 of the token-gated workflow).

The Python file drives an LLM client through a seven-step consultation
pipeline.  Each step validates its inputs against a structural contract and
mints a continuation token whose embedded payload is consumed by the next
step.  This file shallowly embeds the workflow: JSON payload dicts become
Lean structures (optional/duck-typed dict keys become `Option` fields),
the process-wide token store becomes a lookup function
`String → Option TokenData`, external collaborators (SQLite program lookup,
Postgres quota store) become function parameters, and every `raise
ValueError` becomes an `Except.error` carrying a `StepError`.

Modelling conventions, noted once here:
* Python `isinstance` type-mismatch branches (a field present but of the
  wrong dynamic type) are not representable in the typed embedding; the
  `Option` fields model key presence/absence and falsy values are modelled
  where a claim depends on them (`if not x` on strings/ints is an explicit
  emptiness/zero test below).
* In-place dict mutations on error paths of `validate_programs_with_web`
  are unobservable (a token is minted only when no error was collected), so
  the embedding applies the normalising mutations on the success path only.
* Long f-string error texts are kept only as far as their structure matters
  to a property (which ids/fields they name); decorative prose is shortened.
-/

deriving instance DecidableEq for Except

namespace OfferI

/-- Error taxonomy of the workflow: `validate_token` raises for an absent
token or a token of the wrong step type, and every step validator raises
caller-correctable `ValueError`s, modelled as `contractViolation` with the
list of violation messages (a singleton for the fail-fast steps, the full
collected list for the batch-reporting step 5). -/
inductive StepError where
  | invalidToken
  | wrongStepType (expected got : String)
  | contractViolation (msgs : List String)
deriving DecidableEq, Repr

/-- Boolean success test for a step outcome. -/
def stepOk {α : Type} : Except StepError α → Bool
  | .ok _ => true
  | .error _ => false

/-- Substring test, modelling Python's `kw in name` on strings. -/
def strContains (hay kw : String) : Bool :=
  let h := hay.toList
  let k := kw.toList
  (List.range (h.length + 1)).any (fun i => (h.drop i).take k.length == k)

/-- ASCII lowercasing over the character list, modelling Python
`str.lower()` (an executable equivalent of `String.toLower`). -/
def strLower (s : String) : String := String.mk (s.data.map Char.toLower)

/-- Whitespace stripping at both ends over the character list, modelling
Python `str.strip()` (an executable equivalent of `String.trim`). -/
def strTrim (s : String) : String :=
  String.mk (((s.data.dropWhile Char.isWhitespace).reverse.dropWhile
    Char.isWhitespace).reverse)

/-- Prefix test over the character list, modelling Python
`str.startswith` (an executable equivalent of `String.startsWith`). -/
def strStartsWith (s pre : String) : Bool :=
  s.data.take pre.data.length == pre.data

/-- Association-list lookup, modelling Python `dict.get` /  `key in dict`
(dict keys are strings). -/
def alookup {β : Type} (m : List (String × β)) (k : String) : Option β :=
  (m.find? (fun p => p.1 = k)).map (fun p => p.2)

/-- In-place update of one key's value, modelling Python `d[k] = v` for a
key already present. -/
def alupdate {β : Type} (m : List (String × β)) (k : String) (v : β) :
    List (String × β) :=
  m.map (fun p => if p.1 = k then (k, v) else p)

/-- Python `{**a, **b}`: every key of `a` in insertion order (with `b`'s
value when `b` also has the key), then the keys only `b` has. -/
def dictMerge {β : Type} (a b : List (String × β)) : List (String × β) :=
  a.map (fun p => (p.1, (alookup b p.1).getD p.2)) ++
    b.filter (fun p => (alookup a p.1).isNone)

/-- Row returned by the SQLite lookup `_search_programs` (id, name). -/
structure ProgRow where
  id : Int
  name : String
deriving DecidableEq, Repr

/-- Row returned by `_get_program_details_batch`, reduced to the fields the
workflow core reads (the remaining columns are display-only payload). -/
structure ProgramRow where
  programId : Int
  programName : String
  universityName : String
deriving DecidableEq, Repr

/-! ### Step-1 input shapes (`start_consultation`) -/

/-- The `tier_assessment` dict of `start_consultation`; the six keys of
`required_fields` as optional fields (presence = key in dict). -/
structure TierAssessment where
  targetTierRange : Option String
  reachTier : Option String
  matchTier : Option String
  safetyTier : Option String
  careerClarity : Option String
  reasoning : Option String
deriving DecidableEq, Repr

/-- One entry of the optional `web_searches` list of `start_consultation`.
The code validates only `query` and `num_results`; `findings` (named
`key_findings` in the docstring) is carried but never checked. -/
structure WebSearchDecl where
  query : Option String
  numResults : Option Int
  findings : Option String
deriving DecidableEq, Repr

/-- One `api_keys` row of the Postgres quota collaborator. -/
structure ApiKeyRow where
  userId : String
  isSuperKey : Bool
  isActive : Bool

/-- The quota/usage collaborator: key lookup plus the current month's
usage counter per user (the `{user}_{year}_{month}` id is folded into the
collaborator function).  `Option QuotaDb = none` models the collaborator
being unavailable (the `psycopg2` connection or queries raising). -/
structure QuotaDb where
  keys : String → Option ApiKeyRow
  usage : String → Nat

/-- `FREE_CONSULTATION_LIMIT` of the source. -/
def freeConsultationLimit : Nat := 5

/-! ### Token payloads -/

/-- Payload of the `consultation` token minted by step 1. -/
structure ConsultPayload where
  background : String
  tierAssessment : TierAssessment
  webSearchesCompleted : Nat
  webSearchesData : List WebSearchDecl
deriving DecidableEq, Repr

/-- Payload of the `exploration` token minted by step 2. -/
structure ExplorePayload where
  country : String
  universities : List String
  totalUniversities : Nat
  careerClarity : String
deriving DecidableEq, Repr

/-- Payload of the `programs` token minted by step 3
(`get_university_programs`), including the accumulation fields of the
batch loop. -/
structure ProgPayload where
  universities : List String
  allPrograms : List (String × List ProgRow)
  totalPrograms : Nat
  careerClarity : String
  totalSelectedUniversities : List String
  cumulativeProcessed : List String
  cumulativeAllPrograms : List (String × List ProgRow)
  isComplete : Bool
deriving DecidableEq, Repr

/-- Payload of the `shortlist` token minted by step 4. -/
structure ShortlistPayload where
  universities : List String
  shortlistedByUniversity : List (String × List Int)
  totalShortlisted : Nat
  careerClarity : String
  totalSelectedUniversities : List String
deriving DecidableEq, Repr

/-! ### Step-5 input shapes (`validate_programs_with_web`) -/

/-- The per-program `search` dict of step 5 (all keys duck-typed in the
source, hence all optional here). -/
structure SearchInput where
  skipped : Option Bool
  query : Option String
  numResults : Option Int
  findings : Option String
  knownInfo : Option String
deriving DecidableEq, Repr

/-- One value of the `program_searches` dict of step 5. -/
structure ProgSearchInput where
  programName : Option String
  search : Option SearchInput
deriving DecidableEq, Repr

/-- One value of the `web_validations` dict of step 5. -/
structure UniValidationInput where
  thirdRoundProgramIds : Option (List Int)
  programSearches : Option (List (String × ProgSearchInput))
  finalProgramIds : Option (List Int)
deriving DecidableEq, Repr

/-- Payload of the `validation` token minted by step 5. -/
structure ValPayload where
  validatedUniversities : List String
  totalUniversitiesValidated : Nat
  expectedUniversities : List String
  remainingUniversities : List String
  isComplete : Bool
  webSearchesCompleted : Nat
  finalProgramIds : List Int
  webValidations : List (String × UniValidationInput)
  careerClarity : String
deriving DecidableEq, Repr

/-- Payload of the `ranking` token minted by step 6, with scored programs. -/
structure ScoredProgram where
  row : ProgramRow
  reputationScore : ℚ
  fitScore : ℚ
  score : ℚ
  rank : Nat
deriving DecidableEq, Repr

/-- Payload of the `ranking` token minted by `score_and_rank_programs`. -/
structure RankPayload where
  reportFormat : String
  detailedTierCount : Nat
  conciseTierCount : Nat
  requiredExaSearches : Nat
  topPrograms : List ScoredProgram
  totalUniversitiesValidated : Nat
  careerClarity : String
  reputationWeight : ℚ
  fitWeight : ℚ
deriving DecidableEq, Repr

/-! ### Step-7 input shapes (`generate_final_report`) -/

/-- One entry of `exa_searches` in a Tier-1 research item. -/
structure ExaSearch where
  numResults : Option Int
  findings : Option String
  source : Option String
deriving DecidableEq, Repr

/-- One Tier-1 (`detailed_program_research`) item.  The `dimensions` dict's
values are opaque payload; only key presence is validated, so the field is
the list of present keys. -/
structure DetailedResearch where
  programId : Option Int
  exaSearches : List ExaSearch
  dimensions : List String
deriving DecidableEq, Repr

/-- The `summary` dict of a Tier-2 item. -/
structure ConciseSummary where
  quickFacts : Option String
  fitReasoning : Option String
  applicationNotes : Option String
deriving DecidableEq, Repr

/-- One Tier-2 (`concise_program_research`) item. -/
structure ConciseResearch where
  programId : Option Int
  summary : Option ConciseSummary
  source : Option String
deriving DecidableEq, Repr

/-- Result of the terminal step (no further token is minted). -/
structure ReportResult where
  reportFormat : String
  tier1Programs : Nat
  tier2Programs : Nat
  totalExaSearchesValidated : Nat
deriving DecidableEq, Repr

/-! ### Token store -/

/-- The tagged union of step payloads a token can carry.  In the source a
token record pairs a `type` string with a payload dict; `generate_token`
is the only writer and always pairs them consistently, so the type string
is recovered by `tokenType`. -/
inductive TokenData where
  | consultation (c : ConsultPayload)
  | exploration (e : ExplorePayload)
  | programs (p : ProgPayload)
  | shortlist (s : ShortlistPayload)
  | validation (v : ValPayload)
  | ranking (r : RankPayload)
deriving DecidableEq, Repr

/-- The `type` string stored with each token (first component of the
`f"{token_type}_..."` scheme and of the store record). -/
def tokenType : TokenData → String
  | .consultation _ => "consultation"
  | .exploration _ => "exploration"
  | .programs _ => "programs"
  | .shortlist _ => "shortlist"
  | .validation _ => "validation"
  | .ranking _ => "ranking"

/-- The process-wide `_active_tokens` map, as a read function. -/
def TokenStore : Type := String → Option TokenData

/-- `validate_token(token, expected_type)`: `InvalidToken` when the token
is falsy or absent, `WrongStepType` when the stored type string differs
from the expected one, otherwise the embedded payload.  A pure read: the
store is never modified. -/
def validateToken (store : TokenStore) (token : String) (expectedType : String) :
    Except StepError TokenData :=
  if token = "" then .error .invalidToken
  else
    match store token with
    | none => .error .invalidToken
    | some d =>
        if tokenType d = expectedType then .ok d
        else .error (.wrongStepType expectedType (tokenType d))

/-! ### Step 1: `start_consultation` -/

/-- The quota-validation block of `start_consultation` (v1.16): looks up
the API key, rejects unknown/revoked keys, lets super keys through,
rejects a non-super user at or above `FREE_CONSULTATION_LIMIT`.  A
collaborator failure (`db = none`) is caught by the bare `except
Exception: pass` and the step proceeds — fail-open. -/
def quotaGate (db : Option QuotaDb) (apiKey : String) : Except StepError Unit :=
  match db with
  | none => .ok ()
  | some d =>
      match d.keys apiKey with
      | none => .error (.contractViolation ["API key not found or invalid: " ++ apiKey])
      | some row =>
          if ¬ row.isActive then
            .error (.contractViolation ["API key has been revoked."])
          else if row.isSuperKey then .ok ()
          else if freeConsultationLimit ≤ d.usage row.userId then
            .error (.contractViolation ["MONTHLY QUOTA EXCEEDED"])
          else .ok ()

/-- The list of `required_fields` of `tier_assessment` that are absent
from the submission, in the source's order. -/
def tierRequiredMissing (ta : TierAssessment) : List String :=
  (if ta.targetTierRange.isNone then ["target_tier_range"] else []) ++
  (if ta.reachTier.isNone then ["reach_tier"] else []) ++
  (if ta.matchTier.isNone then ["match_tier"] else []) ++
  (if ta.safetyTier.isNone then ["safety_tier"] else []) ++
  (if ta.careerClarity.isNone then ["career_clarity"] else []) ++
  (if ta.reasoning.isNone then ["reasoning"] else [])

/-- Per-entry validation loop over `web_searches` in `start_consultation`:
each search must carry `query` and `num_results`, with `num_results` in
1–25; the loop raises at the first offending entry.  `findings` is never
examined. -/
def checkWebSearches : Nat → List WebSearchDecl → Except StepError Unit
  | _, [] => .ok ()
  | i, s :: rest =>
      match s.query, s.numResults with
      | some _, some n =>
          if 1 ≤ n ∧ n ≤ 25 then checkWebSearches (i + 1) rest
          else .error (.contractViolation
            ["Search #" ++ toString (i + 1) ++ ": num_results must be 1-25. You provided "
              ++ toString n])
      | _, _ => .error (.contractViolation
          ["Search #" ++ toString (i + 1) ++ " must be a dict with 'query' and 'num_results' fields"])

/-- Step 1, `start_consultation`: API-key check, quota gate, required
`tier_assessment` fields, `career_clarity` enum check on the lowercased
value, then the bounded optional `web_searches`.  Mints the
`consultation` payload. -/
def startConsultation (db : Option QuotaDb) (apiKey background : String)
    (ta : TierAssessment) (webSearches : Option (List WebSearchDecl)) :
    Except StepError ConsultPayload :=
  if apiKey = "" ∨ ¬ strStartsWith apiKey "sk_" then
    .error (.contractViolation ["Invalid or missing API key."])
  else
    match quotaGate db apiKey with
    | .error e => .error e
    | .ok () =>
        let missing := tierRequiredMissing ta
        if ¬ missing.isEmpty then
          .error (.contractViolation
            ["tier_assessment missing required fields: " ++ String.intercalate ", " missing])
        else
          let clarity := strLower (ta.careerClarity.getD "")
          if ¬ (clarity = "high" ∨ clarity = "medium" ∨ clarity = "low") then
            .error (.contractViolation
              ["career_clarity must be high, medium, or low. You provided: "
                ++ ta.careerClarity.getD ""])
          else
            let searches := (webSearches.getD [])
            if searches.isEmpty then
              .ok { background := background, tierAssessment := ta,
                    webSearchesCompleted := 0, webSearchesData := [] }
            else if searches.length > 3 then
              .error (.contractViolation
                ["Maximum 3 web searches allowed. You provided " ++ toString searches.length])
            else
              match checkWebSearches 0 searches with
              | .error e => .error e
              | .ok () =>
                  .ok { background := background, tierAssessment := ta,
                        webSearchesCompleted := searches.length,
                        webSearchesData := searches }

/-- The fire-and-forget `_internal_track_usage` tool.  Every control path
of the source returns the empty string: key-shape failures return early,
and the whole database interaction sits in a bare `try/except: pass`.
The second component is the usage counter after the call (the observable
side effect on the collaborator), unchanged whenever any check fails or
the collaborator is unavailable. -/
def internalTrackUsage (db : Option QuotaDb) (apiKey : String) :
    Except StepError (String × Option QuotaDb) :=
  if apiKey = "" ∨ ¬ strStartsWith apiKey "sk_" then .ok ("", db)
  else
    match db with
    | none => .ok ("", none)
    | some d =>
        match d.keys apiKey with
        | none => .ok ("", some d)
        | some row =>
            if ¬ row.isActive then .ok ("", some d)
            else if row.isSuperKey then .ok ("", some d)
            else
              .ok ("", some { d with
                usage := fun u => if u = row.userId then d.usage u + 1 else d.usage u })

/-! ### Step 2: `explore_universities` -/

/-- Step 2, `explore_universities`: lists the universities of the country
via the SQLite collaborator `_list_universities` (a parameter here),
failing when the country has none; propagates `career_clarity` with the
`"medium"` dict-default. -/
def exploreUniversities (listUnis : String → List String) (country : String)
    (cd : ConsultPayload) : Except StepError ExplorePayload :=
  let universities := listUnis country
  if universities.isEmpty then
    .error (.contractViolation ["Country '" ++ country ++ "' not found."])
  else
    .ok { country := country, universities := universities,
          totalUniversities := universities.length,
          careerClarity := cd.tierAssessment.careerClarity.getD "medium" }

/-! ### Step 3: `get_university_programs` -/

/-- Resolution of the batch-chaining inputs of step 3: either the
previous token's accumulated state (which must carry a non-empty target
list), or — on a first call — the mandatory, non-empty
`all_selected_universities` with empty accumulators. -/
def programsChainInfo (allSelectedUniversities : Option (List String))
    (prev : Option ProgPayload) :
    Except StepError (List String × List (String × List ProgRow) × List String) :=
  match prev with
  | some p =>
      if p.totalSelectedUniversities.isEmpty then
        .error (.contractViolation
          ["Previous programs_token is missing total_selected_universities."])
      else .ok (p.totalSelectedUniversities, p.cumulativeAllPrograms, p.cumulativeProcessed)
  | none =>
      match allSelectedUniversities with
      | none => .error (.contractViolation
          ["FIRST BATCH REQUIREMENT: you MUST provide 'all_selected_universities'"])
      | some l =>
          if l.isEmpty then
            .error (.contractViolation
              ["FIRST BATCH REQUIREMENT: you MUST provide 'all_selected_universities'"])
          else .ok (l, [], [])

/-- The body of step 3 once the target list and accumulators are
resolved: the foreign-university check, the duplicate check, the batch
size cap, then accumulation and the completeness recomputation
(`remaining = set(total) - set(processed)`, `is_complete = (len = 0)`). -/
def getUniversityProgramsResolved (sp : String → List ProgRow) (ed : ExplorePayload)
    (universities totalSelected : List String)
    (cumPrograms : List (String × List ProgRow)) (cumProcessed : List String) :
    Except StepError ProgPayload :=
  if universities.filter (fun u => !(totalSelected.contains u)) ≠ [] then
    .error (.contractViolation
      ["Invalid universities in current batch: not in your all_selected_universities list"])
  else if universities.filter (fun u => cumProcessed.contains u) ≠ [] then
    .error (.contractViolation ["Universities already processed in previous batch"])
  else if universities.length > 5 then
    .error (.contractViolation ["Batch Size Limit: this tool handles max 5 per call"])
  else
    let allPrograms :=
      (universities.map (fun u => (u, sp u))).filter (fun p => !p.2.isEmpty)
    let processed := cumProcessed ++ universities
    .ok { universities := universities, allPrograms := allPrograms,
          totalPrograms := (allPrograms.map (fun p => p.2.length)).sum,
          careerClarity := ed.careerClarity,
          totalSelectedUniversities := totalSelected,
          cumulativeProcessed := processed,
          cumulativeAllPrograms := dictMerge cumPrograms allPrograms,
          isComplete := (totalSelected.filter (fun u => !(processed.contains u))).isEmpty }

/-- Step 3, `get_university_programs`: one batch of at most five
universities.  On the first call the complete target list
`all_selected_universities` is required; later calls chain the previous
`programs` payload.  Rejects batch members outside the target list and
members already processed, then accumulates results and recomputes the
remaining set and `is_complete`.  `sp` is the SQLite collaborator
`_search_programs`. -/
def getUniversityPrograms (sp : String → List ProgRow) (ed : ExplorePayload)
    (universities : List String) (allSelectedUniversities : Option (List String))
    (prev : Option ProgPayload) : Except StepError ProgPayload :=
  if universities = [] then
    .error (.contractViolation ["You must provide a list of university names"])
  else
    match programsChainInfo allSelectedUniversities prev with
    | .error e => .error e
    | .ok (totalSelected, cumPrograms, cumProcessed) =>
        getUniversityProgramsResolved sp ed universities totalSelected cumPrograms cumProcessed

/-! ### Step 4: `shortlist_programs_by_name` -/

/-- Step 4, `shortlist_programs_by_name`: rejects an empty submission and
a zero program total; otherwise stores the dict as given (no membership
check of the university names or program ids against anything). -/
def shortlistProgramsByName (pd : ProgPayload)
    (shortlistedByUniversity : List (String × List Int)) :
    Except StepError ShortlistPayload :=
  if shortlistedByUniversity.isEmpty then
    .error (.contractViolation ["You must provide shortlisted_by_university as a dict"])
  else
    let totalShortlisted := (shortlistedByUniversity.map (fun p => p.2.length)).sum
    if totalShortlisted = 0 then
      .error (.contractViolation
        ["You must shortlist at least some programs. Did you review the program names?"])
    else
      .ok { universities := shortlistedByUniversity.map (fun p => p.1),
            shortlistedByUniversity := shortlistedByUniversity,
            totalShortlisted := totalShortlisted,
            careerClarity := pd.careerClarity,
            totalSelectedUniversities := pd.totalSelectedUniversities }

/-! ### Step 5: `validate_programs_with_web` -/

/-- Error bullet of step 5 for a university whose submission misses
`third_round_program_ids`. -/
def missingThirdRoundMsg (uni : String) : String :=
  "• " ++ uni ++ ": missing 'third_round_program_ids' (after career-clarity-based filtering)"

/-- Error bullet of step 5 for a university whose submission misses
`program_searches`. -/
def missingProgramSearchesMsg (uni : String) : String :=
  "• " ++ uni ++ ": missing 'program_searches' (per-program target audience validation)"

/-- Error bullet of step 5 for a university whose submission misses
`final_program_ids`. -/
def missingFinalIdsMsg (uni : String) : String :=
  "• " ++ uni ++ ": missing 'final_program_ids' (after Round 4 final filtering)"

/-- The auto-generated `known_info` text for a skipped search (v1.11). -/
def autoKnownInfo (progName : String) : String :=
  "Program validated based on general knowledge of " ++ progName

/-- The v1.11 `program_name` back-fill: keep a non-empty submitted name,
otherwise the database name from `dbName` (the `_get_program_details_batch`
collaborator) with the `"Program {id}"` dict-get fallback. -/
def backfillName (dbName : Int → Option String) (progId : Int)
    (given : Option String) : String :=
  match given with
  | some n => if n = "" then (dbName progId).getD ("Program " ++ toString progId) else n
  | none => (dbName progId).getD ("Program " ++ toString progId)

/-- Validation and normalisation of one program id of `third_round_program_ids`
against the `program_searches` dict, mirroring the body of the inner loop of
step 5: on success, the updated (`program_name`-back-filled, defaulted)
search entry and whether the search was skipped; on failure, the single
error bullet appended for this program. -/
def processProgSearch (dbName : Int → Option String) (uni : String)
    (searches : List (String × ProgSearchInput)) (progId : Int) :
    Except String (ProgSearchInput × Bool) :=
  let pidStr := toString progId
  match alookup searches pidStr with
  | none => .error ("• " ++ uni ++ ": program " ++ toString progId
      ++ " passed Round 3 but has no search entry in program_searches")
  | some ps =>
      let nm := backfillName dbName progId ps.programName
      match ps.search with
      | none => .error ("• " ++ uni ++ ": program " ++ toString progId ++ " missing 'search' field")
      | some s =>
          match s.skipped with
          | none => .error ("• " ++ uni ++ ": program " ++ toString progId
              ++ " search missing 'skipped' field")
          | some true =>
              let ki := match s.knownInfo with
                | some k => if k = "" then autoKnownInfo nm else k
                | none => autoKnownInfo nm
              .ok ({ programName := some nm, search := some { s with knownInfo := some ki } }, true)
          | some false =>
              match s.query with
              | none => .error ("• " ++ uni ++ ": program " ++ toString progId
                  ++ " search missing 'query' field (required when not skipped)")
              | some _ =>
                  match s.numResults with
                  | none =>
                      .ok ({ programName := some nm,
                             search := some { s with numResults := some 5 } }, false)
                  | some n =>
                      if 3 ≤ n ∧ n ≤ 8 then
                        .ok ({ programName := some nm, search := some s }, false)
                      else
                        .error ("• " ++ uni ++ ": program " ++ toString progId
                          ++ " search num_results must be 3-8 (you provided " ++ toString n ++ ")")

/-- Running state of the inner loop of step 5 over one university's
`third_round_program_ids`: the (mutated-in-place) `program_searches` dict,
the error bullets collected so far, and the search/skip counters. -/
structure ProgLoopState where
  searches : List (String × ProgSearchInput)
  errors : List String
  nSearches : Nat
  nSkipped : Nat
deriving DecidableEq, Repr

/-- One iteration of the inner loop of step 5: an error bullet is
collected and the loop continues, or the search entry is normalised in
place and a counter bumped. -/
def progLoopStep (dbName : Int → Option String) (uni : String)
    (st : ProgLoopState) (progId : Int) : ProgLoopState :=
  match processProgSearch dbName uni st.searches progId with
  | .error e => { st with errors := st.errors ++ [e] }
  | .ok (upd, skipped) =>
      { st with
        searches := alupdate st.searches (toString progId) upd,
        nSearches := st.nSearches + (if skipped then 0 else 1),
        nSkipped := st.nSkipped + (if skipped then 1 else 0) }

/-- Outcome of validating one university's entry of `web_validations`:
its error bullets, the entry after in-place normalisation, the
`final_program_ids` it contributes to `all_final_ids` (empty when the key
is missing), and its search/skip counter contributions. -/
structure UniOutcome where
  errors : List String
  updated : UniValidationInput
  finalIds : List Int
  nSearches : Nat
  nSkipped : Nat
deriving DecidableEq, Repr

/-- The per-university body of step 5's outer loop: `continue`-style
skips for a missing `third_round_program_ids` or `program_searches`, then
the inner per-program loop, then the `final_program_ids` check whose
failure still keeps the per-program bullets collected before it. -/
def processUni (dbName : Int → Option String) (uni : String)
    (v : UniValidationInput) : UniOutcome :=
  match v.thirdRoundProgramIds with
  | none => ⟨[missingThirdRoundMsg uni], v, [], 0, 0⟩
  | some thirdIds =>
      match v.programSearches with
      | none => ⟨[missingProgramSearchesMsg uni], v, [], 0, 0⟩
      | some searches =>
          let st := thirdIds.foldl (progLoopStep dbName uni) ⟨searches, [], 0, 0⟩
          let v' := { v with programSearches := some st.searches }
          match v.finalProgramIds with
          | none => ⟨st.errors ++ [missingFinalIdsMsg uni], v', [], st.nSearches, st.nSkipped⟩
          | some fin => ⟨st.errors, v', fin, st.nSearches, st.nSkipped⟩

/-- The `expected_unis` of step 5: the propagated
`total_selected_universities` of the shortlist token, with the v1.14
falsy-fallback to the batch's own university list. -/
def expectedOf (sd : ShortlistPayload) : List String :=
  if sd.totalSelectedUniversities.isEmpty then sd.universities
  else sd.totalSelectedUniversities

/-- `previously_validated` of step 5: empty on the first batch, the
accumulated list from the chained token otherwise. -/
def prevValidatedOf : Option ValPayload → List String
  | none => []
  | some p => p.validatedUniversities

/-- `previous_program_ids` of step 5. -/
def prevIdsOf : Option ValPayload → List Int
  | none => []
  | some p => p.finalProgramIds

/-- `previous_validations` of step 5. -/
def prevValsOf : Option ValPayload → List (String × UniValidationInput)
  | none => []
  | some p => p.webValidations

/-- All error bullets collected across the universities of one step-5
submission, in submission order. -/
def webErrors (dbName : Int → Option String)
    (wv : List (String × UniValidationInput)) : List String :=
  (wv.map (fun p => (processUni dbName p.1 p.2).errors)).flatten

/-- `all_final_ids` accumulated across one step-5 submission. -/
def webFinalIds (dbName : Int → Option String)
    (wv : List (String × UniValidationInput)) : List Int :=
  (wv.map (fun p => (processUni dbName p.1 p.2).finalIds)).flatten

/-- `total_searches` accumulated across one step-5 submission. -/
def webSearchCount (dbName : Int → Option String)
    (wv : List (String × UniValidationInput)) : Nat :=
  (wv.map (fun p => (processUni dbName p.1 p.2).nSearches)).sum

/-- The step-5 submission after its in-place normalising mutations. -/
def webUpdated (dbName : Int → Option String)
    (wv : List (String × UniValidationInput)) : List (String × UniValidationInput) :=
  wv.map (fun p => (p.1, (processUni dbName p.1 p.2).updated))

/-- Step 5, `validate_programs_with_web`: duplicate-batch and
foreign-university rejection, then the per-university validation that
collects every bullet before raising one aggregate error, then the
accumulation of validated universities and program ids across batches and
the completeness recomputation. -/
def validateProgramsWithWeb (dbName : Int → Option String)
    (webValidations : List (String × UniValidationInput))
    (sd : ShortlistPayload) (prev : Option ValPayload) :
    Except StepError ValPayload :=
  if webValidations = [] then
    .error (.contractViolation ["You must provide web_validations as a dict"])
  else if (webValidations.map (fun p => p.1)).filter
      (fun u => (prevValidatedOf prev).contains u) ≠ [] then
    .error (.contractViolation
      ["Universities already validated in previous batch: you cannot validate the same university twice"])
  else if (webValidations.map (fun p => p.1)).filter
      (fun u => !((expectedOf sd).contains u)) ≠ [] then
    .error (.contractViolation
      ["Invalid university names: these universities were not in your shortlist"])
  else if webErrors dbName webValidations ≠ [] then
    .error (.contractViolation (webErrors dbName webValidations))
  else if webFinalIds dbName webValidations = [] then
    .error (.contractViolation
      ["No programs passed validation. Did you filter too aggressively?"])
  else
    let cumulativeValidated := prevValidatedOf prev ++ webValidations.map (fun p => p.1)
    .ok { validatedUniversities := cumulativeValidated,
          totalUniversitiesValidated := cumulativeValidated.length,
          expectedUniversities := expectedOf sd,
          remainingUniversities :=
            (expectedOf sd).filter (fun u => !(cumulativeValidated.contains u)),
          isComplete :=
            ((expectedOf sd).filter (fun u => !(cumulativeValidated.contains u))).isEmpty,
          webSearchesCompleted := webSearchCount dbName webValidations,
          finalProgramIds := prevIdsOf prev ++ webFinalIds dbName webValidations,
          webValidations := dictMerge (prevValsOf prev) (webUpdated dbName webValidations),
          careerClarity := sd.careerClarity }

/-! ### Step 6: `score_and_rank_programs` -/

/-- Top-tier keyword list of `_estimate_university_reputation` (95–100
band, score 97). -/
def topTierKeywords : List String :=
  ["stanford", "mit", "harvard", "berkeley", "cmu", "carnegie mellon",
   "oxford", "cambridge", "imperial", "eth zurich",
   "national university of singapore", "nus", "nanyang", "ntu",
   "tsinghua", "peking", "hku", "university of hong kong",
   "hkust", "hong kong university of science", "cuhk", "chinese university of hong kong"]

/-- High-tier keyword list of `_estimate_university_reputation` (85–94
band, score 89). -/
def highTierKeywords : List String :=
  ["cornell", "columbia", "princeton", "yale", "upenn", "pennsylvania",
   "michigan", "ucla", "ucsd", "usc", "georgia tech",
   "toronto", "waterloo", "mcgill", "ubc",
   "cityu", "city university of hong kong", "polyu", "polytechnic university"]

/-- Mid-tier keyword list of `_estimate_university_reputation` (70–84
band, score 77). -/
def midTierKeywords : List String :=
  ["washington", "wisconsin", "illinois", "texas", "boston university",
   "northeastern", "purdue", "duke", "northwestern"]

/-- Keyword-membership test over a lowercased university name. -/
def hasAnyKeyword (kws : List String) (uniNameLower : String) : Bool :=
  kws.any (fun kw => strContains uniNameLower kw)

/-- `_estimate_university_reputation`: four-tier keyword-membership
heuristic on the lowercased institution name, returning 97 / 89 / 77 and
the 70 default. -/
def estimateUniversityReputation (uniNameLower : String) : ℚ :=
  if hasAnyKeyword topTierKeywords uniNameLower then 97
  else if hasAnyKeyword highTierKeywords uniNameLower then 89
  else if hasAnyKeyword midTierKeywords uniNameLower then 77
  else 70

/-- Reputation weight of the career-clarity lookup table of step 6
(`high` → 0.3, `low` → 0.7, anything else the `medium` 0.5 branch). -/
def reputationWeightOf (careerClarity : String) : ℚ :=
  if careerClarity = "high" then 3 / 10
  else if careerClarity = "low" then 7 / 10
  else 1 / 2

/-- Fit weight of the career-clarity lookup table of step 6. -/
def fitWeightOf (careerClarity : String) : ℚ :=
  if careerClarity = "high" then 7 / 10
  else if careerClarity = "low" then 3 / 10
  else 1 / 2

/-- The constant fit score given to every already-validated program. -/
def baseFitScore : ℚ := 85

/-- Stable insertion of one scored program into a score-descending list,
keeping the earlier element first on ties — together with `sortDesc` this
models the stable `list.sort(key=score, reverse=True)` of the source. -/
def insertDesc (x : ScoredProgram) : List ScoredProgram → List ScoredProgram
  | [] => [x]
  | q :: qs => if q.score ≤ x.score then x :: q :: qs else q :: insertDesc x qs

/-- Stable descending sort by score (insertion sort; agrees with any
stable sort, which is what Python's `sort` guarantees). -/
def sortDesc : List ScoredProgram → List ScoredProgram
  | [] => []
  | x :: xs => insertDesc x (sortDesc xs)

/-- The `for i, program in enumerate(programs): program["rank"] = i+1`
loop: positional ranks starting from `k`. -/
def assignRanks (k : Nat) : List ScoredProgram → List ScoredProgram
  | [] => []
  | p :: ps => { p with rank := k } :: assignRanks (k + 1) ps

/-- Scoring of one fetched program row in step 6: the reputation
heuristic on the lowercased institution name, the constant fit score, and
the weighted sum `reputation * w_rep + fit * w_fit`. -/
def scoreProgram (careerClarity : String) (p : ProgramRow) : ScoredProgram :=
  { row := p,
    reputationScore := estimateUniversityReputation (strLower p.universityName),
    fitScore := baseFitScore,
    score := estimateUniversityReputation (strLower p.universityName)
        * reputationWeightOf careerClarity + baseFitScore * fitWeightOf careerClarity,
    rank := 0 }

/-- Step 6's score-sort-rank pipeline over the fetched rows. -/
def rankedPrograms (careerClarity : String) (programs : List ProgramRow) :
    List ScoredProgram :=
  assignRanks 1 (sortDesc (programs.map (scoreProgram careerClarity)))

/-- Step 6, `score_and_rank_programs`: refuses an incomplete validation
payload; otherwise fetches the final programs (collaborator
`_get_program_details_batch` as `fetch`), scores each as
`reputation * w_rep + fit * w_fit` with the career-clarity weight table,
sorts descending, assigns positional ranks, and picks the report scale by
whether at least 7 universities were validated. -/
def scoreAndRankPrograms (fetch : List Int → List ProgramRow)
    (vd : ValPayload) : Except StepError RankPayload :=
  if ¬ vd.isComplete then
    .error (.contractViolation
      ["VALIDATION INCOMPLETE! You have NOT validated all universities from your shortlist."])
  else if 7 ≤ vd.totalUniversitiesValidated then
    .ok { reportFormat := "TOP_20", detailedTierCount := 10, conciseTierCount := 10,
          requiredExaSearches := 30,
          topPrograms := (rankedPrograms vd.careerClarity (fetch vd.finalProgramIds)).take 20,
          totalUniversitiesValidated := vd.totalUniversitiesValidated,
          careerClarity := vd.careerClarity,
          reputationWeight := reputationWeightOf vd.careerClarity,
          fitWeight := fitWeightOf vd.careerClarity }
  else
    .ok { reportFormat := "TOP_10", detailedTierCount := 5, conciseTierCount := 0,
          requiredExaSearches := 15,
          topPrograms := (rankedPrograms vd.careerClarity (fetch vd.finalProgramIds)).take 5,
          totalUniversitiesValidated := vd.totalUniversitiesValidated,
          careerClarity := vd.careerClarity,
          reputationWeight := reputationWeightOf vd.careerClarity,
          fitWeight := fitWeightOf vd.careerClarity }

/-! ### Step 7: `generate_final_report` -/

/-- `expected_results = [4, 8, 4]` of the per-search loop of step 7. -/
def expectedResultOf : Nat → Int
  | 0 => 4
  | 1 => 8
  | _ => 4

/-- `search_names` of the per-search loop of step 7. -/
def searchNameOf : Nat → String
  | 0 => "Tuition & Cost"
  | 1 => "Program Features & Career"
  | _ => "Application Deadline"

/-- The step-7 error text for a search block that omits `findings`,
naming the program id and the 1-based search index. -/
def missingFindingsMsg (pid : Int) (j : Nat) : String :=
  "Program " ++ toString pid ++ ", Search #" ++ toString (j + 1) ++ " ("
    ++ searchNameOf j ++ "): missing 'findings' field. You MUST perform Exa search OR use LLM knowledge if Exa fails."

/-- Validation of the `j`-th search of a Tier-1 program in step 7:
`num_results` present and exactly the expected count, `findings` present,
a non-empty string, at least 50 characters once stripped, and `source`
(when present) one of `exa`/`llm_knowledge`.  Raises at the first failed
check. -/
def validateReportSearch (pid : Int) (j : Nat) (s : ExaSearch) : Except String Unit :=
  let nm := searchNameOf j
  let hd := "Program " ++ toString pid ++ ", Search #" ++ toString (j + 1) ++ " (" ++ nm ++ "): "
  match s.numResults with
  | none => .error (hd ++ "missing 'num_results' field")
  | some actual =>
      if actual ≠ expectedResultOf j then
        .error (hd ++ "must have EXACTLY " ++ toString (expectedResultOf j)
          ++ " results. You provided " ++ toString actual)
      else
        match s.findings with
        | none => .error (missingFindingsMsg pid j)
        | some f =>
            if f = "" then .error (hd ++ "'findings' must be a non-empty string")
            else if (strTrim f).length < 50 then
              .error (hd ++ "'findings' too short (" ++ toString (strTrim f).length
                ++ " chars). Provide detailed findings (min 50 chars).")
            else
              match s.source with
              | some src =>
                  if src = "exa" ∨ src = "llm_knowledge" then .ok ()
                  else .error (hd ++ "'source' must be one of [exa, llm_knowledge]. You provided: " ++ src)
              | none => .ok ()

/-- The inner search loop of step 7 over one program's `exa_searches`,
from position `j`. -/
def validateReportSearches (pid : Int) : Nat → List ExaSearch → Except String Unit
  | _, [] => .ok ()
  | j, s :: rest =>
      match validateReportSearch pid j s with
      | .error e => .error e
      | .ok () => validateReportSearches pid (j + 1) rest

/-- `required_dims` of step 7. -/
def requiredDims : List String :=
  ["location_environment", "career_prospects", "program_intensity",
   "unique_features", "application_timeline", "total_cost"]

/-- Validation of the `i`-th Tier-1 research item of step 7: a truthy
`program_id`, exactly 3 searches, each search's contract, then presence
of every required analysis dimension. -/
def validateDetailedProgram (i : Nat) (r : DetailedResearch) : Except String Unit :=
  match r.programId with
  | none => .error ("Research #" ++ toString (i + 1) ++ ": missing program_id")
  | some pid =>
      if pid = 0 then .error ("Research #" ++ toString (i + 1) ++ ": missing program_id")
      else if r.exaSearches.length ≠ 3 then
        .error ("Program " ++ toString pid ++ ": must have EXACTLY 3 Exa searches. You provided "
          ++ toString r.exaSearches.length ++ ".")
      else
        match validateReportSearches pid 0 r.exaSearches with
        | .error e => .error e
        | .ok () =>
            if ¬ (requiredDims.filter (fun d => !(r.dimensions.contains d))).isEmpty then
              .error ("Program " ++ toString pid ++ ": missing dimensions: "
                ++ String.intercalate ", "
                  (requiredDims.filter (fun d => !(r.dimensions.contains d))))
            else .ok ()

/-- The Tier-1 loop of step 7 from item index `i`, raising at the first
offending item and otherwise counting the validated searches
(`total_searches`). -/
def validateDetailedList : Nat → List DetailedResearch → Except String Nat
  | _, [] => .ok 0
  | i, r :: rest =>
      match validateDetailedProgram i r with
      | .error e => .error e
      | .ok () =>
          match validateDetailedList (i + 1) rest with
          | .error e => .error e
          | .ok n => .ok (r.exaSearches.length + n)

/-- Validation of one summary field of a Tier-2 item: present, truthy, a
string of at least 30 stripped characters. -/
def validateSummaryField (pid : Int) (fieldName : String) (v : Option String) :
    Except String Unit :=
  match v with
  | none => .error ("Tier 2 Program " ++ toString pid ++ ": missing '" ++ fieldName ++ "' in summary")
  | some s =>
      if s = "" then
        .error ("Tier 2 Program " ++ toString pid ++ ": missing '" ++ fieldName ++ "' in summary")
      else if (strTrim s).length < 30 then
        .error ("Tier 2 Program " ++ toString pid ++ ": '" ++ fieldName
          ++ "' must be a string with at least 30 characters.")
      else .ok ()

/-- Validation of the `i`-th Tier-2 research item of step 7. -/
def validateConciseProgram (i : Nat) (c : ConciseResearch) : Except String Unit :=
  match c.programId with
  | none => .error ("Tier 2 Research #" ++ toString (i + 1) ++ ": missing program_id")
  | some pid =>
      if pid = 0 then .error ("Tier 2 Research #" ++ toString (i + 1) ++ ": missing program_id")
      else
        match c.summary with
        | none => .error ("Tier 2 Program " ++ toString pid ++ ": missing or invalid 'summary' dict")
        | some su =>
            match validateSummaryField pid "quick_facts" su.quickFacts with
            | .error e => .error e
            | .ok () =>
                match validateSummaryField pid "fit_reasoning" su.fitReasoning with
                | .error e => .error e
                | .ok () =>
                    match validateSummaryField pid "application_notes" su.applicationNotes with
                    | .error e => .error e
                    | .ok () =>
                        match c.source with
                        | some src =>
                            if src = "" ∨ src = "llm_knowledge" ∨ src = "exa" then .ok ()
                            else .error ("Tier 2 Program " ++ toString pid
                              ++ ": source must be 'llm_knowledge' or 'exa'. You provided: " ++ src)
                        | none => .ok ()

/-- The Tier-2 loop of step 7 (`if concise_program_research:` — a no-op
on an absent or empty list). -/
def validateConciseList : Nat → List ConciseResearch → Except String Unit
  | _, [] => .ok ()
  | i, c :: rest =>
      match validateConciseProgram i c with
      | .error e => .error e
      | .ok () => validateConciseList (i + 1) rest

/-- Step 7, `generate_final_report`: exact Tier-1 count from the ranking
token, Tier-2 presence and count when the format requires it, the Tier-1
per-program/per-search contract, the Tier-2 summary contract, and the
final total-search-count cross-check.  Terminal: no token is minted. -/
def generateFinalReport (rp : RankPayload) (detailed : List DetailedResearch)
    (concise : Option (List ConciseResearch)) : Except StepError ReportResult :=
  if detailed.isEmpty ∨ detailed.length ≠ rp.detailedTierCount then
    .error (.contractViolation
      ["Tier 1 (detailed): Expected " ++ toString rp.detailedTierCount ++ " programs, got "
        ++ toString detailed.length ++ "."])
  else if 0 < rp.conciseTierCount ∧ (concise.getD []).isEmpty then
    .error (.contractViolation
      ["Tier 2 (concise): " ++ rp.reportFormat ++ " format requires Tier 2 summaries."])
  else if 0 < rp.conciseTierCount ∧ (concise.getD []).length ≠ rp.conciseTierCount then
    .error (.contractViolation
      ["Tier 2 (concise): Expected " ++ toString rp.conciseTierCount ++ " programs, got "
        ++ toString (concise.getD []).length ++ "."])
  else
    match validateDetailedList 0 detailed with
    | .error e => .error (.contractViolation [e])
    | .ok totalSearches =>
        match validateConciseList 0 (concise.getD []) with
        | .error e => .error (.contractViolation [e])
        | .ok () =>
            if totalSearches ≠ rp.requiredExaSearches then
              .error (.contractViolation
                ["Expected " ++ toString rp.requiredExaSearches
                  ++ " total Exa searches for Tier 1, but you provided " ++ toString totalSearches])
            else
              .ok { reportFormat := rp.reportFormat, tier1Programs := rp.detailedTierCount,
                    tier2Programs := rp.conciseTierCount,
                    totalExaSearchesValidated := totalSearches }

/-! ### Store-level step wrappers

Each remote-callable step first runs `validate_token` on its token
argument(s) and then the payload-level body above.  The fresh token
minted on success is an opaque random string; the wrappers return the
payload that would be stored under it. -/

/-- Step 2 as called over the token store. -/
def exploreUniversitiesStep (store : TokenStore) (listUnis : String → List String)
    (country : String) (consultationToken : String) : Except StepError ExplorePayload :=
  match validateToken store consultationToken "consultation" with
  | .error e => .error e
  | .ok (.consultation c) => exploreUniversities listUnis country c
  | .ok d => .error (.wrongStepType "consultation" (tokenType d))

/-- Step 3 as called over the token store (`exploration_token` validated
first, the optional `previous_programs_token` after the batch-list
check). -/
def getUniversityProgramsStep (store : TokenStore) (sp : String → List ProgRow)
    (universities : List String) (explorationToken : String)
    (allSelectedUniversities : Option (List String))
    (previousProgramsToken : Option String) : Except StepError ProgPayload :=
  match validateToken store explorationToken "exploration" with
  | .error e => .error e
  | .ok (.exploration ed) =>
      if universities.isEmpty then
        .error (.contractViolation ["You must provide a list of university names"])
      else
        (match previousProgramsToken with
         | none => getUniversityPrograms sp ed universities allSelectedUniversities none
         | some t =>
             match validateToken store t "programs" with
             | .error e => .error e
             | .ok (.programs p) =>
                 getUniversityPrograms sp ed universities allSelectedUniversities (some p)
             | .ok d => .error (.wrongStepType "programs" (tokenType d)))
  | .ok d => .error (.wrongStepType "exploration" (tokenType d))

/-- Step 4 as called over the token store. -/
def shortlistProgramsByNameStep (store : TokenStore)
    (shortlistedByUniversity : List (String × List Int)) (programsToken : String) :
    Except StepError ShortlistPayload :=
  match validateToken store programsToken "programs" with
  | .error e => .error e
  | .ok (.programs pd) => shortlistProgramsByName pd shortlistedByUniversity
  | .ok d => .error (.wrongStepType "programs" (tokenType d))

/-- Step 5 as called over the token store (`shortlist_token` validated
first, the optional `previous_validation_token` after the emptiness
check of `web_validations`). -/
def validateProgramsWithWebStep (store : TokenStore) (dbName : Int → Option String)
    (webValidations : List (String × UniValidationInput)) (shortlistToken : String)
    (previousValidationToken : Option String) : Except StepError ValPayload :=
  match validateToken store shortlistToken "shortlist" with
  | .error e => .error e
  | .ok (.shortlist sd) =>
      if webValidations.isEmpty then
        .error (.contractViolation ["You must provide web_validations as a dict"])
      else
        (match previousValidationToken with
         | none => validateProgramsWithWeb dbName webValidations sd none
         | some t =>
             match validateToken store t "validation" with
             | .error e => .error e
             | .ok (.validation p) => validateProgramsWithWeb dbName webValidations sd (some p)
             | .ok d => .error (.wrongStepType "validation" (tokenType d)))
  | .ok d => .error (.wrongStepType "shortlist" (tokenType d))

/-- Step 6 as called over the token store. -/
def scoreAndRankProgramsStep (store : TokenStore) (fetch : List Int → List ProgramRow)
    (validationToken : String) : Except StepError RankPayload :=
  match validateToken store validationToken "validation" with
  | .error e => .error e
  | .ok (.validation vd) => scoreAndRankPrograms fetch vd
  | .ok d => .error (.wrongStepType "validation" (tokenType d))

/-- Step 7 as called over the token store. -/
def generateFinalReportStep (store : TokenStore) (detailed : List DetailedResearch)
    (rankingToken : String) (concise : Option (List ConciseResearch)) :
    Except StepError ReportResult :=
  match validateToken store rankingToken "ranking" with
  | .error e => .error e
  | .ok (.ranking rp) => generateFinalReport rp detailed concise
  | .ok d => .error (.wrongStepType "ranking" (tokenType d))

/-! ### Chained batch sequences

The batch loops of steps 3 and 5 chain calls through tokens: a first call
declares the complete target list; each later call carries the previous
call's token.  The predicates below are the payloads reachable by such a
chain, for a fixed target list `T` (step 3) and a fixed expected list `E`
propagated by the shortlist tokens (step 5). -/

/-- Payloads reachable by a chained sequence of successful
`get_university_programs` calls whose first call declared
`all_selected_universities = T`. -/
inductive ProgReachable (sp : String → List ProgRow) (T : List String) :
    ProgPayload → Prop where
  | first (ed : ExplorePayload) (unis : List String) (p : ProgPayload)
      (h : getUniversityPrograms sp ed unis (some T) none = .ok p) :
      ProgReachable sp T p
  | chain (ed : ExplorePayload) (unis : List String) (aso : Option (List String))
      (p q : ProgPayload) (hp : ProgReachable sp T p)
      (h : getUniversityPrograms sp ed unis aso (some p) = .ok q) :
      ProgReachable sp T q

/-- Payloads reachable by a chained sequence of successful
`validate_programs_with_web` calls whose shortlist tokens all carry the
expected-university list `E`. -/
inductive ValReachable (dbName : Int → Option String) (E : List String) :
    ValPayload → Prop where
  | first (wv : List (String × UniValidationInput)) (sd : ShortlistPayload)
      (p : ValPayload) (hE : expectedOf sd = E)
      (h : validateProgramsWithWeb dbName wv sd none = .ok p) :
      ValReachable dbName E p
  | chain (wv : List (String × UniValidationInput)) (sd : ShortlistPayload)
      (p q : ValPayload) (hE : expectedOf sd = E) (hp : ValReachable dbName E p)
      (h : validateProgramsWithWeb dbName wv sd (some p) = .ok q) :
      ValReachable dbName E q

/-! ### Concrete fixtures for the closed evaluation theorems -/

/-- Fixture SQLite collaborator: every university has one program row. -/
def fixSp : String → List ProgRow := fun _ => [⟨1, "Sample Program"⟩]

/-- Fixture exploration payload for step-3 chains. -/
def fixEd : ExplorePayload :=
  { country := "USA", universities := ["A", "B"], totalUniversities := 2,
    careerClarity := "medium" }

/-- Payload after the first fixture batch `["A"]` of a two-batch step-3
chain with target list `["A", "B"]`. -/
def fixP1 : ProgPayload :=
  { universities := ["A"], allPrograms := [("A", [⟨1, "Sample Program"⟩])],
    totalPrograms := 1, careerClarity := "medium",
    totalSelectedUniversities := ["A", "B"], cumulativeProcessed := ["A"],
    cumulativeAllPrograms := [("A", [⟨1, "Sample Program"⟩])], isComplete := false }

/-- Payload after the second fixture batch `["B"]`. -/
def fixP2 : ProgPayload :=
  { universities := ["B"], allPrograms := [("B", [⟨1, "Sample Program"⟩])],
    totalPrograms := 1, careerClarity := "medium",
    totalSelectedUniversities := ["A", "B"],
    cumulativeProcessed := ["A", "B"],
    cumulativeAllPrograms := [("A", [⟨1, "Sample Program"⟩]), ("B", [⟨1, "Sample Program"⟩])],
    isComplete := true }

/-- Fixture database-name collaborator for step 5. -/
def fixDbName : Int → Option String := fun i => if i = 7 then some "Prog Seven" else none

/-- Fixture skipped search entry (with explicit `known_info`). -/
def fixSkippedEntry : ProgSearchInput :=
  { programName := some "P",
    search := some { skipped := some true, query := none, numResults := none,
                     findings := none, knownInfo := some "known: targets CS students" } }

/-- Fixture step-5 submission for university `A`. -/
def fixUval1 : UniValidationInput :=
  { thirdRoundProgramIds := some [1], programSearches := some [("1", fixSkippedEntry)],
    finalProgramIds := some [1] }

/-- Fixture step-5 submission for university `B`. -/
def fixUval2 : UniValidationInput :=
  { thirdRoundProgramIds := some [2], programSearches := some [("2", fixSkippedEntry)],
    finalProgramIds := some [2] }

/-- Fixture shortlist payload for batch `["A"]` with target `["A", "B"]`. -/
def fixSd1 : ShortlistPayload :=
  { universities := ["A"], shortlistedByUniversity := [("A", [1])], totalShortlisted := 1,
    careerClarity := "medium", totalSelectedUniversities := ["A", "B"] }

/-- Fixture shortlist payload for batch `["B"]` with target `["A", "B"]`. -/
def fixSd2 : ShortlistPayload :=
  { universities := ["B"], shortlistedByUniversity := [("B", [2])], totalShortlisted := 1,
    careerClarity := "medium", totalSelectedUniversities := ["A", "B"] }

/-- Validation payload after the first fixture step-5 batch. -/
def fixVp1 : ValPayload :=
  { validatedUniversities := ["A"], totalUniversitiesValidated := 1,
    expectedUniversities := ["A", "B"], remainingUniversities := ["B"],
    isComplete := false, webSearchesCompleted := 0, finalProgramIds := [1],
    webValidations := [("A", fixUval1)], careerClarity := "medium" }

/-- Validation payload after the second fixture step-5 batch. -/
def fixVp2 : ValPayload :=
  { validatedUniversities := ["A", "B"], totalUniversitiesValidated := 2,
    expectedUniversities := ["A", "B"], remainingUniversities := [],
    isComplete := true, webSearchesCompleted := 0, finalProgramIds := [1, 2],
    webValidations := [("A", fixUval1), ("B", fixUval2)], careerClarity := "medium" }

/-- Fixture consultation payload (stored under a fixture token). -/
def fixConsult : ConsultPayload :=
  { background := "CS student", tierAssessment :=
      { targetTierRange := some "Top 20-50", reachTier := some "Top 10-20",
        matchTier := some "Top 20-40", safetyTier := some "Top 40-60",
        careerClarity := some "high", reasoning := some "strong profile" },
    webSearchesCompleted := 0, webSearchesData := [] }

/-- Fixture validation payload, complete, three universities validated. -/
def fixVdone : ValPayload :=
  { validatedUniversities := ["A", "B", "C"], totalUniversitiesValidated := 3,
    expectedUniversities := ["A", "B", "C"], remainingUniversities := [],
    isComplete := true, webSearchesCompleted := 0, finalProgramIds := [1, 2],
    webValidations := [], careerClarity := "high" }

/-- Fixture ranking payload of the small `TOP_10` report scale. -/
def fixRank10 : RankPayload :=
  { reportFormat := "TOP_10", detailedTierCount := 5, conciseTierCount := 0,
    requiredExaSearches := 15, topPrograms := [], totalUniversitiesValidated := 3,
    careerClarity := "medium", reputationWeight := 1 / 2, fitWeight := 1 / 2 }

/-- Scored fixture program at a top-tier institution. -/
def fixScored1 : ScoredProgram :=
  { row := ⟨1, "MS CS", "Stanford University"⟩, reputationScore := 97, fitScore := 85,
    score := 97 * (3 / 10) + 85 * (7 / 10), rank := 0 }

/-- Scored fixture program at an unrecognised institution. -/
def fixScored2 : ScoredProgram :=
  { row := ⟨2, "MS DS", "Greenfield College"⟩, reputationScore := 70, fitScore := 85,
    score := 70 * (3 / 10) + 85 * (7 / 10), rank := 0 }

/-- Expected ranking payload of step 6 on the fixture validation
payload. -/
def fixRankResult : RankPayload :=
  { reportFormat := "TOP_10", detailedTierCount := 5, conciseTierCount := 0,
    requiredExaSearches := 15,
    topPrograms := [{ fixScored1 with rank := 1 }, { fixScored2 with rank := 2 }],
    totalUniversitiesValidated := 3, careerClarity := "high",
    reputationWeight := 3 / 10, fitWeight := 7 / 10 }

/-- Fixture token store with one token of each step type. -/
def fixStore : TokenStore := fun t =>
  if t = "consultation_tok1" then some (.consultation fixConsult)
  else if t = "exploration_tok1" then some (.exploration fixEd)
  else if t = "programs_tok1" then some (.programs fixP1)
  else if t = "shortlist_tok1" then some (.shortlist fixSd1)
  else if t = "validation_tok1" then some (.validation fixVp1)
  else if t = "ranking_tok1" then some (.ranking fixRank10)
  else none

/-- Fixture details collaborator for step 6. -/
def fixFetch : List Int → List ProgramRow := fun _ =>
  [⟨1, "MS CS", "Stanford University"⟩, ⟨2, "MS DS", "Greenfield College"⟩]

/-- A findings text of at least 50 stripped characters. -/
def longFindings : String :=
  "Based on Exa search: tuition 60k, living 20k, total about 80k per year overall."

/-- A summary text of at least 30 stripped characters. -/
def longSummary : String := "One-year program, about 60k total cost, STEM."

/-- A fully valid Tier-1 research item for program id `pid`. -/
def validDetailed (pid : Int) : DetailedResearch :=
  { programId := some pid,
    exaSearches :=
      [ { numResults := some 4, findings := some longFindings, source := some "exa" },
        { numResults := some 8, findings := some longFindings, source := some "exa" },
        { numResults := some 4, findings := some longFindings, source := some "llm_knowledge" } ],
    dimensions := requiredDims }

/-- Tier-1 item whose first search omits `num_results` (first violation of
the `c3input` submission). -/
def c3bad1 : DetailedResearch :=
  { programId := some 101,
    exaSearches :=
      [ { numResults := none, findings := some longFindings, source := none },
        { numResults := some 8, findings := some longFindings, source := none },
        { numResults := some 4, findings := some longFindings, source := none } ],
    dimensions := requiredDims }

/-- Tier-1 item whose first search has the right `num_results` but omits
`findings` (second, independent violation of the `c3input` submission). -/
def c3bad2 : DetailedResearch :=
  { programId := some 102,
    exaSearches :=
      [ { numResults := some 4, findings := none, source := none },
        { numResults := some 8, findings := some longFindings, source := none },
        { numResults := some 4, findings := some longFindings, source := none } ],
    dimensions := requiredDims }

/-- A step-7 submission of five Tier-1 items violating two independent
contract rules (program 101 misses a `num_results`, program 102 misses a
`findings`). -/
def c3input : List DetailedResearch :=
  [c3bad1, c3bad2, validDetailed 103, validDetailed 104, validDetailed 105]

/-- A fully valid step-7 Tier-1 submission of five items. -/
def fixReportInput : List DetailedResearch :=
  [validDetailed 101, validDetailed 102, validDetailed 103, validDetailed 104,
   validDetailed 105]

/-- Fixture valid `tier_assessment`. -/
def fixTa : TierAssessment :=
  { targetTierRange := some "Top 20-50", reachTier := some "Top 10-20",
    matchTier := some "Top 20-40", safetyTier := some "Top 40-60",
    careerClarity := some "high", reasoning := some "strong profile overall" }

/-- Fixture `tier_assessment` whose career clarity uses near-miss casing. -/
def fixTaCased : TierAssessment := { fixTa with careerClarity := some "High" }

/-- A declared (non-skipped) step-1 web search without any findings text. -/
def fixSearchNoFindings : WebSearchDecl :=
  { query := some "similar admission cases 2024", numResults := some 5, findings := none }

/-- Fixture quota collaborator: one active non-super key at the monthly
limit, one active key with remaining quota. -/
def fixQuotaDb : QuotaDb :=
  { keys := fun k =>
      if k = "sk_full" then some ⟨"user_full", false, true⟩
      else if k = "sk_ok" then some ⟨"user_ok", false, true⟩
      else none,
    usage := fun u => if u = "user_full" then freeConsultationLimit else 0 }

/-- A non-skipped step-5 search declaration without `num_results`. -/
def fix8S7 : SearchInput :=
  { skipped := some false, query := some "q7", numResults := none,
    findings := none, knownInfo := none }

/-- A skipped step-5 search declaration without `known_info`. -/
def fix8S9 : SearchInput :=
  { skipped := some true, query := none, numResults := none,
    findings := none, knownInfo := none }

/-- Step-5 submission exercising the three documented defaults: program 7
declares a search without `num_results` and without `program_name`;
program 9 is skipped without `known_info`. -/
def fixUval8 : UniValidationInput :=
  { thirdRoundProgramIds := some [7, 9],
    programSearches := some
      [ ("7", { programName := none, search := some fix8S7 }),
        ("9", { programName := none, search := some fix8S9 }) ],
    finalProgramIds := some [7] }

/-- `fixUval8` after step 5's in-place normalisation: the defaulted
`num_results`, the back-filled program names, and the auto-generated
`known_info`. -/
def fixUval8Upd : UniValidationInput :=
  { thirdRoundProgramIds := some [7, 9],
    programSearches := some
      [ ("7", { programName := some "Prog Seven",
                search := some { fix8S7 with numResults := some 5 } }),
        ("9", { programName := some "Program 9",
                search := some { fix8S9 with
                  knownInfo := some (autoKnownInfo "Program 9") } }) ],
    finalProgramIds := some [7] }

/-- The validation payload minted for the defaults submission. -/
def fixVp8 : ValPayload :=
  { validatedUniversities := ["U"], totalUniversitiesValidated := 1,
    expectedUniversities := ["U"], remainingUniversities := [],
    isComplete := true, webSearchesCompleted := 1, finalProgramIds := [7],
    webValidations := [("U", fixUval8Upd)], careerClarity := "medium" }

/-- Fixture shortlist payload for the defaults submission. -/
def fixSd8 : ShortlistPayload :=
  { universities := ["U"], shortlistedByUniversity := [("U", [7, 9])], totalShortlisted := 2,
    careerClarity := "medium", totalSelectedUniversities := ["U"] }

/-- A step-7 Tier-1 submission whose only offending item (the second)
omits one `findings`. -/
def c5input : List DetailedResearch :=
  [validDetailed 101, c3bad2, validDetailed 103, validDetailed 104, validDetailed 105]

/-- A step-5 university submission that omits `third_round_program_ids`
altogether. -/
def uvalNoThird : UniValidationInput :=
  { thirdRoundProgramIds := none, programSearches := none, finalProgramIds := none }

/-- The first search block of `validDetailed` (4 results, long findings,
Exa-sourced). -/
def fixExa1 : ExaSearch :=
  { numResults := some 4, findings := some longFindings, source := some "exa" }

/-- A `tier_assessment` whose career clarity has leading whitespace. -/
def fixTaSpaced : TierAssessment := { fixTa with careerClarity := some " high" }

/-- A Tier-2 research item declaring the empty-string source. -/
def fixConciseEmptySource : ConciseResearch :=
  { programId := some 1,
    summary := some ⟨some longSummary, some longSummary, some longSummary⟩,
    source := some "" }

/-- The step-1 payload minted for the cased-clarity fixture. -/
def fixConsultCased : ConsultPayload :=
  { background := "background", tierAssessment := fixTaCased,
    webSearchesCompleted := 0, webSearchesData := [] }

/-- A non-skipped step-5 search declaration carrying no findings text. -/
def fixNoFindSearch : SearchInput :=
  { skipped := some false, query := some "q7", numResults := some 5,
    findings := none, knownInfo := none }

/-! ## Theorems -/

/-- C10: for every valid `programs` payload, `shortlist_programs_by_name`
accepts exactly the submissions that are a non-empty dict with a positive
total of program ids; nothing about the university names or the program
ids themselves is consulted (acceptance is characterised for arbitrary
names and ids, including ones outside the batch or target list). -/
theorem c10_shortlist_accepts_any_nonempty (pd : ProgPayload)
    (d : List (String × List Int)) :
    stepOk (shortlistProgramsByName pd d) = true ↔
      (d ≠ [] ∧ 0 < (d.map (fun p => p.2.length)).sum) := by
  unfold shortlistProgramsByName
  rcases d with _ | ⟨hd, tl⟩
  · simp [stepOk]
  · simp only [List.isEmpty_cons, if_false, Bool.false_eq_true]
    split
    · rename_i hz
      constructor
      · intro h
        simp [stepOk] at h
      · rintro ⟨-, hpos⟩
        omega
    · rename_i hz
      exact ⟨fun _ => ⟨by simp, Nat.pos_of_ne_zero hz⟩, fun _ => rfl⟩

/-- C2: token type safety.  `validate_token` fails with `InvalidToken` on
an empty or unknown token and with `WrongStepType` when the stored type
differs from the expected one, and on success returns exactly the stored
payload (the lookup is a pure read, so repeating it gives the same
result); and every token-consuming workflow step propagates exactly these
errors for its token argument(s) — for the optional chaining tokens of
steps 3 and 5, which the source validates after its first argument
checks, under the hypothesis that those checks pass. -/
theorem c2_token_type_safety :
    (∀ (store : TokenStore) (tok ty : String),
      (tok = "" ∨ store tok = none) →
        validateToken store tok ty = .error .invalidToken) ∧
    (∀ (store : TokenStore) (tok ty : String) (d : TokenData),
      tok ≠ "" → store tok = some d → tokenType d ≠ ty →
        validateToken store tok ty = .error (.wrongStepType ty (tokenType d))) ∧
    (∀ (store : TokenStore) (tok ty : String) (d : TokenData),
      tok ≠ "" → store tok = some d → tokenType d = ty →
        validateToken store tok ty = .ok d) ∧
    (∀ store listU country tok, (tok = "" ∨ store tok = none) →
      exploreUniversitiesStep store listU country tok = .error .invalidToken) ∧
    (∀ store listU country tok d, tok ≠ "" → store tok = some d →
      tokenType d ≠ "consultation" →
        exploreUniversitiesStep store listU country tok =
          .error (.wrongStepType "consultation" (tokenType d))) ∧
    (∀ store sp unis tok aso prevTok, (tok = "" ∨ store tok = none) →
      getUniversityProgramsStep store sp unis tok aso prevTok = .error .invalidToken) ∧
    (∀ store sp unis tok aso prevTok d, tok ≠ "" → store tok = some d →
      tokenType d ≠ "exploration" →
        getUniversityProgramsStep store sp unis tok aso prevTok =
          .error (.wrongStepType "exploration" (tokenType d))) ∧
    (∀ store sp unis etok aso t ed, store etok = some (.exploration ed) → etok ≠ "" →
      unis ≠ [] → (t = "" ∨ store t = none) →
        getUniversityProgramsStep store sp unis etok aso (some t) = .error .invalidToken) ∧
    (∀ store sp unis etok aso t ed d, store etok = some (.exploration ed) → etok ≠ "" →
      unis ≠ [] → t ≠ "" → store t = some d → tokenType d ≠ "programs" →
        getUniversityProgramsStep store sp unis etok aso (some t) =
          .error (.wrongStepType "programs" (tokenType d))) ∧
    (∀ store d tok, (tok = "" ∨ store tok = none) →
      shortlistProgramsByNameStep store d tok = .error .invalidToken) ∧
    (∀ store dd tok d, tok ≠ "" → store tok = some d → tokenType d ≠ "programs" →
      shortlistProgramsByNameStep store dd tok =
        .error (.wrongStepType "programs" (tokenType d))) ∧
    (∀ store dbn wv tok prevTok, (tok = "" ∨ store tok = none) →
      validateProgramsWithWebStep store dbn wv tok prevTok = .error .invalidToken) ∧
    (∀ store dbn wv tok prevTok d, tok ≠ "" → store tok = some d →
      tokenType d ≠ "shortlist" →
        validateProgramsWithWebStep store dbn wv tok prevTok =
          .error (.wrongStepType "shortlist" (tokenType d))) ∧
    (∀ store dbn wv stok t sd, store stok = some (.shortlist sd) → stok ≠ "" →
      wv ≠ [] → (t = "" ∨ store t = none) →
        validateProgramsWithWebStep store dbn wv stok (some t) = .error .invalidToken) ∧
    (∀ store dbn wv stok t sd d, store stok = some (.shortlist sd) → stok ≠ "" →
      wv ≠ [] → t ≠ "" → store t = some d → tokenType d ≠ "validation" →
        validateProgramsWithWebStep store dbn wv stok (some t) =
          .error (.wrongStepType "validation" (tokenType d))) ∧
    (∀ store fetch tok, (tok = "" ∨ store tok = none) →
      scoreAndRankProgramsStep store fetch tok = .error .invalidToken) ∧
    (∀ store fetch tok d, tok ≠ "" → store tok = some d → tokenType d ≠ "validation" →
      scoreAndRankProgramsStep store fetch tok =
        .error (.wrongStepType "validation" (tokenType d))) ∧
    (∀ store det tok con, (tok = "" ∨ store tok = none) →
      generateFinalReportStep store det tok con = .error .invalidToken) ∧
    (∀ store det tok con d, tok ≠ "" → store tok = some d → tokenType d ≠ "ranking" →
      generateFinalReportStep store det tok con =
        .error (.wrongStepType "ranking" (tokenType d))) := by
  have hinv : ∀ (store : TokenStore) (tok ty : String), (tok = "" ∨ store tok = none) →
      validateToken store tok ty = .error .invalidToken := by
    intro store tok ty h
    unfold validateToken
    rcases h with h | h
    · simp [h]
    · by_cases he : tok = ""
      · simp [he]
      · simp [he, h]
  have hwrong : ∀ (store : TokenStore) (tok ty : String) (d : TokenData),
      tok ≠ "" → store tok = some d → tokenType d ≠ ty →
      validateToken store tok ty = .error (.wrongStepType ty (tokenType d)) := by
    intro store tok ty d h1 h2 h3
    unfold validateToken
    simp [h1, h2, h3]
  have hok : ∀ (store : TokenStore) (tok ty : String) (d : TokenData),
      tok ≠ "" → store tok = some d → tokenType d = ty →
      validateToken store tok ty = .ok d := by
    intro store tok ty d h1 h2 h3
    unfold validateToken
    simp [h1, h2, h3]
  have hexp : ∀ (d : TokenData) (ed : ExplorePayload),
      tokenType d = "exploration" → d ≠ .exploration ed → ∃ e, d = .exploration e := by
    intro d ed h _
    cases d <;> simp_all [tokenType]
  refine ⟨hinv, hwrong, hok, ?_, ?_, ?_, ?_, ?_, ?_, ?_, ?_, ?_, ?_, ?_, ?_, ?_, ?_, ?_, ?_⟩
  · intro store listU country tok h
    unfold exploreUniversitiesStep
    rw [hinv store tok _ h]
  · intro store listU country tok d h1 h2 h3
    unfold exploreUniversitiesStep
    rw [hwrong store tok _ d h1 h2 h3]
  · intro store sp unis tok aso prevTok h
    unfold getUniversityProgramsStep
    rw [hinv store tok _ h]
  · intro store sp unis tok aso prevTok d h1 h2 h3
    unfold getUniversityProgramsStep
    rw [hwrong store tok _ d h1 h2 h3]
  · intro store sp unis etok aso t ed hstore hne hunis h
    unfold getUniversityProgramsStep
    rw [hok store etok "exploration" (.exploration ed) hne hstore (by rfl)]
    simp only [List.isEmpty_iff, hunis, if_false]
    rw [hinv store t _ h]
  · intro store sp unis etok aso t ed d hstore hne hunis h1 h2 h3
    unfold getUniversityProgramsStep
    rw [hok store etok "exploration" (.exploration ed) hne hstore (by rfl)]
    simp only [List.isEmpty_iff, hunis, if_false]
    rw [hwrong store t _ d h1 h2 h3]
  · intro store dd tok h
    unfold shortlistProgramsByNameStep
    rw [hinv store tok _ h]
  · intro store dd tok d h1 h2 h3
    unfold shortlistProgramsByNameStep
    rw [hwrong store tok _ d h1 h2 h3]
  · intro store dbn wv tok prevTok h
    unfold validateProgramsWithWebStep
    rw [hinv store tok _ h]
  · intro store dbn wv tok prevTok d h1 h2 h3
    unfold validateProgramsWithWebStep
    rw [hwrong store tok _ d h1 h2 h3]
  · intro store dbn wv stok t sd hstore hne hwv h
    unfold validateProgramsWithWebStep
    rw [hok store stok "shortlist" (.shortlist sd) hne hstore (by rfl)]
    simp only [List.isEmpty_iff, hwv, if_false]
    rw [hinv store t _ h]
  · intro store dbn wv stok t sd d hstore hne hwv h1 h2 h3
    unfold validateProgramsWithWebStep
    rw [hok store stok "shortlist" (.shortlist sd) hne hstore (by rfl)]
    simp only [List.isEmpty_iff, hwv, if_false]
    rw [hwrong store t _ d h1 h2 h3]
  · intro store fetch tok h
    unfold scoreAndRankProgramsStep
    rw [hinv store tok _ h]
  · intro store fetch tok d h1 h2 h3
    unfold scoreAndRankProgramsStep
    rw [hwrong store tok _ d h1 h2 h3]
  · intro store det tok con h
    unfold generateFinalReportStep
    rw [hinv store tok _ h]
  · intro store det tok con d h1 h2 h3
    unfold generateFinalReportStep
    rw [hwrong store tok _ d h1 h2 h3]

/-- Witness for C2 on the fixture store: every conjunct instantiated at a
concrete token. -/
theorem c2_token_type_safety_witness :
    validateToken fixStore "nope" "consultation" = .error .invalidToken ∧
    validateToken fixStore "ranking_tok1" "consultation" =
      .error (.wrongStepType "consultation" "ranking") ∧
    validateToken fixStore "consultation_tok1" "consultation" =
      .ok (.consultation fixConsult) ∧
    exploreUniversitiesStep fixStore (fun _ => ["U"]) "USA" "nope" =
      .error .invalidToken ∧
    exploreUniversitiesStep fixStore (fun _ => ["U"]) "USA" "ranking_tok1" =
      .error (.wrongStepType "consultation" "ranking") ∧
    getUniversityProgramsStep fixStore fixSp ["A"] "nope" none none =
      .error .invalidToken ∧
    getUniversityProgramsStep fixStore fixSp ["A"] "ranking_tok1" none none =
      .error (.wrongStepType "exploration" "ranking") ∧
    getUniversityProgramsStep fixStore fixSp ["B"] "exploration_tok1" none (some "nope") =
      .error .invalidToken ∧
    getUniversityProgramsStep fixStore fixSp ["B"] "exploration_tok1" none
      (some "ranking_tok1") = .error (.wrongStepType "programs" "ranking") ∧
    shortlistProgramsByNameStep fixStore [("A", [1])] "nope" = .error .invalidToken ∧
    shortlistProgramsByNameStep fixStore [("A", [1])] "ranking_tok1" =
      .error (.wrongStepType "programs" "ranking") ∧
    validateProgramsWithWebStep fixStore fixDbName [("A", fixUval1)] "nope" none =
      .error .invalidToken ∧
    validateProgramsWithWebStep fixStore fixDbName [("A", fixUval1)] "ranking_tok1" none =
      .error (.wrongStepType "shortlist" "ranking") ∧
    validateProgramsWithWebStep fixStore fixDbName [("B", fixUval2)] "shortlist_tok1"
      (some "nope") = .error .invalidToken ∧
    validateProgramsWithWebStep fixStore fixDbName [("B", fixUval2)] "shortlist_tok1"
      (some "ranking_tok1") = .error (.wrongStepType "validation" "ranking") ∧
    scoreAndRankProgramsStep fixStore fixFetch "nope" = .error .invalidToken ∧
    scoreAndRankProgramsStep fixStore fixFetch "ranking_tok1" =
      .error (.wrongStepType "validation" "ranking") ∧
    generateFinalReportStep fixStore fixReportInput "nope" none = .error .invalidToken ∧
    generateFinalReportStep fixStore fixReportInput "consultation_tok1" none =
      .error (.wrongStepType "ranking" "consultation") := by
  obtain ⟨h1, h2, h3, h4, h5, h6, h7, h8, h9, h10, h11, h12, h13, h14, h15, h16, h17, h18, h19⟩ :=
    c2_token_type_safety
  refine ⟨?_, ?_, ?_, ?_, ?_, ?_, ?_, ?_, ?_, ?_, ?_, ?_, ?_, ?_, ?_, ?_, ?_, ?_, ?_⟩
  · exact h1 fixStore "nope" "consultation" (Or.inr rfl)
  · exact h2 fixStore "ranking_tok1" "consultation" (.ranking fixRank10)
      (by decide) rfl (by decide)
  · exact h3 fixStore "consultation_tok1" "consultation" (.consultation fixConsult)
      (by decide) rfl (by decide)
  · exact h4 fixStore (fun _ => ["U"]) "USA" "nope" (Or.inr rfl)
  · exact h5 fixStore (fun _ => ["U"]) "USA" "ranking_tok1" (.ranking fixRank10)
      (by decide) rfl (by decide)
  · exact h6 fixStore fixSp ["A"] "nope" none none (Or.inr rfl)
  · exact h7 fixStore fixSp ["A"] "ranking_tok1" none none (.ranking fixRank10)
      (by decide) rfl (by decide)
  · exact h8 fixStore fixSp ["B"] "exploration_tok1" none "nope" fixEd
      rfl (by decide) (by decide) (Or.inr rfl)
  · exact h9 fixStore fixSp ["B"] "exploration_tok1" none "ranking_tok1" fixEd
      (.ranking fixRank10) rfl (by decide) (by decide) (by decide) rfl
      (by decide)
  · exact h10 fixStore [("A", [1])] "nope" (Or.inr rfl)
  · exact h11 fixStore [("A", [1])] "ranking_tok1" (.ranking fixRank10)
      (by decide) rfl (by decide)
  · exact h12 fixStore fixDbName [("A", fixUval1)] "nope" none (Or.inr rfl)
  · exact h13 fixStore fixDbName [("A", fixUval1)] "ranking_tok1" none (.ranking fixRank10)
      (by decide) rfl (by decide)
  · exact h14 fixStore fixDbName [("B", fixUval2)] "shortlist_tok1" "nope" fixSd1
      rfl (by decide) (by decide) (Or.inr rfl)
  · exact h15 fixStore fixDbName [("B", fixUval2)] "shortlist_tok1" "ranking_tok1" fixSd1
      (.ranking fixRank10) rfl (by decide) (by decide) (by decide) rfl
      (by decide)
  · exact h16 fixStore fixFetch "nope" (Or.inr rfl)
  · exact h17 fixStore fixFetch "ranking_tok1" (.ranking fixRank10)
      (by decide) rfl (by decide)
  · exact h18 fixStore fixReportInput "nope" none (Or.inr rfl)
  · exact h19 fixStore fixReportInput "consultation_tok1" none (.consultation fixConsult)
      (by decide) rfl (by decide)

/-- Bridge between Boolean `List.contains` and membership. -/
theorem contains_iff_mem {α : Type} [BEq α] [LawfulBEq α] {l : List α} {a : α} :
    l.contains a = true ↔ a ∈ l := List.elem_iff

/-- Bridge between a false `List.contains` and non-membership. -/
theorem contains_false_iff {α : Type} [BEq α] [LawfulBEq α] {l : List α} {a : α} :
    l.contains a = false ↔ a ∉ l := by
  constructor
  · intro h hm
    rw [contains_iff_mem.mpr hm] at h
    cases h
  · intro h
    cases hc : l.contains a
    · rfl
    · exact absurd (contains_iff_mem.mp hc) h

/-- Inversion of a successful chain-info resolution of step 3. -/
theorem programsChainInfo_ok_spec {aso : Option (List String)} {prev : Option ProgPayload}
    {x : List String × List (String × List ProgRow) × List String}
    (h : programsChainInfo aso prev = .ok x) :
    x.1 ≠ [] ∧
      ((prev = none ∧ aso = some x.1 ∧ x.2.2 = ([] : List String)) ∨
        (∃ q, prev = some q ∧ x.1 = q.totalSelectedUniversities ∧
          x.2.2 = q.cumulativeProcessed)) := by
  rcases prev with _ | q
  · rcases aso with _ | l
    · simp [programsChainInfo] at h
    · simp only [programsChainInfo] at h
      split at h
      · simp at h
      · rename_i hne
        cases h
        exact ⟨by simpa [List.isEmpty_iff] using hne, Or.inl ⟨rfl, rfl, rfl⟩⟩
  · simp only [programsChainInfo] at h
    split at h
    · simp at h
    · rename_i hne
      cases h
      exact ⟨by simpa [List.isEmpty_iff] using hne, Or.inr ⟨q, rfl, rfl, rfl⟩⟩

/-- Inversion of a successful resolved step-3 body. -/
theorem getUniversityProgramsResolved_ok_spec {sp : String → List ProgRow}
    {ed : ExplorePayload} {unis ts : List String}
    {cps : List (String × List ProgRow)} {cproc : List String} {p : ProgPayload}
    (h : getUniversityProgramsResolved sp ed unis ts cps cproc = .ok p) :
    (∀ u ∈ unis, u ∈ ts) ∧ (∀ u ∈ unis, u ∉ cproc) ∧
      p.totalSelectedUniversities = ts ∧ p.cumulativeProcessed = cproc ++ unis ∧
      (p.isComplete = true ↔ ∀ u ∈ ts, u ∈ cproc ++ unis) := by
  unfold getUniversityProgramsResolved at h
  split at h
  · simp at h
  · split at h
    · simp at h
    · split at h
      · simp at h
      · rename_i hinv hdup hlen
        rw [not_not] at hinv hdup
        cases h
        refine ⟨?_, ?_, rfl, rfl, ?_⟩
        · intro u hu
          have hx := List.filter_eq_nil_iff.mp hinv u hu
          cases hc : ts.contains u with
          | false => exact absurd (by rw [hc]; rfl) hx
          | true => exact contains_iff_mem.mp hc
        · intro u hu
          have hx := List.filter_eq_nil_iff.mp hdup u hu
          cases hc : cproc.contains u with
          | false => exact contains_false_iff.mp hc
          | true => exact absurd hc hx
        · simp only [List.isEmpty_iff, List.filter_eq_nil_iff]
          constructor
          · intro hall u hu
            have hx := hall u hu
            cases hc : (cproc ++ unis).contains u with
            | false => exact absurd (by rw [hc]; rfl) hx
            | true => exact contains_iff_mem.mp hc
          · intro hall u hu
            rw [contains_iff_mem.mpr (hall u hu)]
            decide

/-- Inversion of a successful `get_university_programs` call: where the
target list and the processed accumulator came from, the checks the
batch passed, and the accumulation stored in the new payload. -/
theorem getUniversityPrograms_ok_spec {sp : String → List ProgRow} {ed : ExplorePayload}
    {unis : List String} {aso : Option (List String)} {prev : Option ProgPayload}
    {p : ProgPayload} (h : getUniversityPrograms sp ed unis aso prev = .ok p) :
    ∃ totalSelected cumProcessed,
      ((prev = none ∧ aso = some totalSelected ∧ cumProcessed = ([] : List String)) ∨
        (∃ q, prev = some q ∧ totalSelected = q.totalSelectedUniversities ∧
          cumProcessed = q.cumulativeProcessed)) ∧
      totalSelected ≠ [] ∧ unis ≠ [] ∧
      (∀ u ∈ unis, u ∈ totalSelected) ∧ (∀ u ∈ unis, u ∉ cumProcessed) ∧
      p.totalSelectedUniversities = totalSelected ∧
      p.cumulativeProcessed = cumProcessed ++ unis ∧
      (p.isComplete = true ↔ ∀ u ∈ totalSelected, u ∈ cumProcessed ++ unis) := by
  unfold getUniversityPrograms at h
  split at h
  · simp at h
  · rename_i hne
    cases hch : programsChainInfo aso prev with
    | error e =>
        rw [hch] at h
        simp at h
    | ok x =>
        obtain ⟨ts, cps, cproc⟩ := x
        rw [hch] at h
        obtain ⟨hts, hcase⟩ := programsChainInfo_ok_spec hch
        obtain ⟨hsub, hdisj, h1, h2, h3⟩ := getUniversityProgramsResolved_ok_spec h
        exact ⟨ts, cproc, hcase, hts, hne, hsub, hdisj, h1, h2, h3⟩

/-- Re-submitting an already-processed university to step 3 always
fails, whatever else the call contains. -/
theorem getUniversityPrograms_dup_rejected {sp : String → List ProgRow}
    {ed : ExplorePayload} {unis : List String} {aso : Option (List String)}
    {q : ProgPayload} {u : String} (hu : u ∈ unis) (hproc : u ∈ q.cumulativeProcessed) :
    stepOk (getUniversityPrograms sp ed unis aso (some q)) = false := by
  unfold getUniversityPrograms
  split
  · rfl
  · cases hch : programsChainInfo aso (some q) with
    | error e => rfl
    | ok x =>
        obtain ⟨ts, cps, cproc⟩ := x
        have hcproc : cproc = q.cumulativeProcessed := by
          obtain ⟨-, hcase⟩ := programsChainInfo_ok_spec hch
          rcases hcase with ⟨h0, -, -⟩ | ⟨q2, hq2, -, hc⟩
          · exact absurd h0 (by simp)
          · injection hq2 with hq2
            rw [hq2]
            exact hc
        change stepOk (getUniversityProgramsResolved sp ed unis ts cps cproc) = false
        unfold getUniversityProgramsResolved
        split
        · rfl
        · split
          · rfl
          · rename_i hinv hdup
            exfalso
            apply hdup
            apply List.ne_nil_of_mem (a := u)
            rw [List.mem_filter]
            refine ⟨hu, ?_⟩
            rw [hcproc]
            exact contains_iff_mem.mpr hproc

/-- A step-3 batch naming a university outside the declared target list
always fails (chained-call form). -/
theorem getUniversityPrograms_foreign_rejected_chain {sp : String → List ProgRow}
    {ed : ExplorePayload} {unis : List String} {aso : Option (List String)}
    {q : ProgPayload} {u : String} (hu : u ∈ unis)
    (hout : u ∉ q.totalSelectedUniversities) :
    stepOk (getUniversityPrograms sp ed unis aso (some q)) = false := by
  unfold getUniversityPrograms
  split
  · rfl
  · cases hch : programsChainInfo aso (some q) with
    | error e => rfl
    | ok x =>
        obtain ⟨ts, cps, cproc⟩ := x
        have hts : ts = q.totalSelectedUniversities := by
          obtain ⟨-, hcase⟩ := programsChainInfo_ok_spec hch
          rcases hcase with ⟨h0, -, -⟩ | ⟨q2, hq2, hc, -⟩
          · exact absurd h0 (by simp)
          · injection hq2 with hq2
            rw [hq2]
            exact hc
        change stepOk (getUniversityProgramsResolved sp ed unis ts cps cproc) = false
        unfold getUniversityProgramsResolved
        split
        · rfl
        · rename_i hinv
          exfalso
          apply hinv
          apply List.ne_nil_of_mem (a := u)
          rw [List.mem_filter]
          refine ⟨hu, ?_⟩
          simp only [Bool.not_eq_true']
          rw [hts]
          exact contains_false_iff.mpr hout

/-- A step-3 batch naming a university outside the declared target list
always fails (first-call form). -/
theorem getUniversityPrograms_foreign_rejected_first {sp : String → List ProgRow}
    {ed : ExplorePayload} {unis : List String} {l : List String} {u : String}
    (hu : u ∈ unis) (hout : u ∉ l) :
    stepOk (getUniversityPrograms sp ed unis (some l) none) = false := by
  unfold getUniversityPrograms
  split
  · rfl
  · cases hch : programsChainInfo (some l) none with
    | error e => rfl
    | ok x =>
        obtain ⟨ts, cps, cproc⟩ := x
        have hts : ts = l := by
          obtain ⟨-, hcase⟩ := programsChainInfo_ok_spec hch
          rcases hcase with ⟨-, hsome, -⟩ | ⟨q2, hq2, -, -⟩
          · injection hsome with hsome
            rw [hsome]
          · exact absurd hq2 (by simp)
        change stepOk (getUniversityProgramsResolved sp ed unis ts cps cproc) = false
        unfold getUniversityProgramsResolved
        split
        · rfl
        · rename_i hinv
          exfalso
          apply hinv
          apply List.ne_nil_of_mem (a := u)
          rw [List.mem_filter]
          refine ⟨hu, ?_⟩
          simp only [Bool.not_eq_true']
          rw [hts]
          exact contains_false_iff.mpr hout

/-- Invariant of step-3 chains: the target list is preserved, the
processed accumulator stays inside it, and `is_complete` holds exactly
when the target list is exhausted. -/
theorem progReachable_invariant {sp : String → List ProgRow} {T : List String}
    {p : ProgPayload} (h : ProgReachable sp T p) :
    p.totalSelectedUniversities = T ∧ (∀ u ∈ p.cumulativeProcessed, u ∈ T) ∧
      (p.isComplete = true ↔ ∀ u ∈ T, u ∈ p.cumulativeProcessed) := by
  induction h with
  | first ed unis p h =>
      obtain ⟨ts, cproc, hcase, hts, hunis, hsub, hdisj, hpts, hpcp, hic⟩ :=
        getUniversityPrograms_ok_spec h
      rcases hcase with ⟨-, haso, hcp⟩ | ⟨q, hq, -, -⟩
      · injection haso with hTts
        subst hTts
        subst hcp
        refine ⟨hpts, ?_, ?_⟩
        · intro u hu
          rw [hpcp] at hu
          simp only [List.nil_append] at hu
          exact hsub u hu
        · rw [← hpcp] at hic
          exact hic
      · exact absurd hq (by simp)
  | chain ed unis aso p q hp hstep ih =>
      obtain ⟨ts, cproc, hcase, hts, hunis, hsub, hdisj, hpts, hpcp, hic⟩ :=
        getUniversityPrograms_ok_spec hstep
      rcases hcase with ⟨hq0, -, -⟩ | ⟨q2, hq2, hts2, hcp2⟩
      · exact absurd hq0 (by simp)
      · injection hq2 with hq2
        subst hq2
        obtain ⟨ihT, ihsub, ihic⟩ := ih
        have hTts : ts = T := hts2.trans ihT
        subst hTts
        refine ⟨hpts, ?_, ?_⟩
        · intro u hu
          rw [hpcp] at hu
          rcases List.mem_append.mp hu with hu2 | hu2
          · rw [hcp2] at hu2
            exact ihsub u hu2
          · exact hsub u hu2
        · rw [← hpcp] at hic
          exact hic

/-- Inversion of a successful `validate_programs_with_web` call. -/
theorem validateProgramsWithWeb_ok_spec {dbName : Int → Option String}
    {wv : List (String × UniValidationInput)} {sd : ShortlistPayload}
    {prev : Option ValPayload} {vp : ValPayload}
    (h : validateProgramsWithWeb dbName wv sd prev = .ok vp) :
    wv ≠ [] ∧
    (∀ u ∈ wv.map (fun p => p.1), u ∉ prevValidatedOf prev) ∧
    (∀ u ∈ wv.map (fun p => p.1), u ∈ expectedOf sd) ∧
    vp.expectedUniversities = expectedOf sd ∧
    vp.validatedUniversities = prevValidatedOf prev ++ wv.map (fun p => p.1) ∧
    vp.webValidations = dictMerge (prevValsOf prev) (webUpdated dbName wv) ∧
    (vp.isComplete = true ↔ ∀ u ∈ expectedOf sd, u ∈ vp.validatedUniversities) := by
  unfold validateProgramsWithWeb at h
  split at h
  · simp at h
  · split at h
    · simp at h
    · split at h
      · simp at h
      · split at h
        · simp at h
        · split at h
          · simp at h
          · rename_i hne hdup hinv herr hfin
            rw [not_not] at hdup hinv
            cases h
            refine ⟨hne, ?_, ?_, rfl, rfl, rfl, ?_⟩
            · intro u hu
              have hx := List.filter_eq_nil_iff.mp hdup u hu
              cases hc : (prevValidatedOf prev).contains u with
              | false => exact contains_false_iff.mp hc
              | true => exact absurd hc hx
            · intro u hu
              have hx := List.filter_eq_nil_iff.mp hinv u hu
              cases hc : (expectedOf sd).contains u with
              | false => exact absurd (by rw [hc]; rfl) hx
              | true => exact contains_iff_mem.mp hc
            · show ((expectedOf sd).filter
                  (fun u => !((prevValidatedOf prev ++ wv.map (fun p => p.1)).contains u))).isEmpty
                    = true ↔ _
              simp only [List.isEmpty_iff, List.filter_eq_nil_iff]
              constructor
              · intro hall u hu
                have hx := hall u hu
                cases hc : (prevValidatedOf prev ++ wv.map (fun p => p.1)).contains u with
                | false => exact absurd (by rw [hc]; rfl) hx
                | true => exact contains_iff_mem.mp hc
              · intro hall u hu
                rw [contains_iff_mem.mpr (hall u hu)]
                decide

/-- Re-validating an already-validated university in step 5 always
fails. -/
theorem validateProgramsWithWeb_dup_rejected {dbName : Int → Option String}
    {wv : List (String × UniValidationInput)} {sd : ShortlistPayload}
    {q : ValPayload} {u : String} (hu : u ∈ wv.map (fun p => p.1))
    (hval : u ∈ q.validatedUniversities) :
    stepOk (validateProgramsWithWeb dbName wv sd (some q)) = false := by
  unfold validateProgramsWithWeb
  split
  · rfl
  · split
    · rfl
    · rename_i hne hdup
      exfalso
      apply hdup
      apply List.ne_nil_of_mem (a := u)
      rw [List.mem_filter]
      exact ⟨hu, contains_iff_mem.mpr hval⟩

/-- A step-5 submission naming a university outside the expected list
always fails. -/
theorem validateProgramsWithWeb_foreign_rejected {dbName : Int → Option String}
    {wv : List (String × UniValidationInput)} {sd : ShortlistPayload}
    {prev : Option ValPayload} {u : String} (hu : u ∈ wv.map (fun p => p.1))
    (hout : u ∉ expectedOf sd) :
    stepOk (validateProgramsWithWeb dbName wv sd prev) = false := by
  unfold validateProgramsWithWeb
  split
  · rfl
  · split
    · rfl
    · split
      · rfl
      · rename_i h1 h2 hinv
        exfalso
        apply hinv
        apply List.ne_nil_of_mem (a := u)
        rw [List.mem_filter]
        refine ⟨hu, ?_⟩
        simp only [Bool.not_eq_true']
        exact contains_false_iff.mpr hout

/-- Invariant of step-5 chains: the expected list is preserved, the
validated accumulator stays inside it, and `is_complete` holds exactly
when the expected list is exhausted. -/
theorem valReachable_invariant {dbName : Int → Option String} {E : List String}
    {vp : ValPayload} (h : ValReachable dbName E vp) :
    vp.expectedUniversities = E ∧ (∀ u ∈ vp.validatedUniversities, u ∈ E) ∧
      (vp.isComplete = true ↔ ∀ u ∈ E, u ∈ vp.validatedUniversities) := by
  induction h with
  | first wv sd p hE h =>
      obtain ⟨hne, hdisj, hsub, hexp, hval, hvals, hic⟩ := validateProgramsWithWeb_ok_spec h
      rw [hE] at hexp hsub hic
      refine ⟨hexp, ?_, hic⟩
      intro u hu
      rw [hval] at hu
      rcases List.mem_append.mp hu with hu2 | hu2
      · simp [prevValidatedOf] at hu2
      · exact hsub u hu2
  | chain wv sd p q hE hp h ih =>
      obtain ⟨hne, hdisj, hsub, hexp, hval, hvals, hic⟩ := validateProgramsWithWeb_ok_spec h
      rw [hE] at hexp hsub hic
      obtain ⟨ihE, ihsub, ihic⟩ := ih
      refine ⟨hexp, ?_, hic⟩
      intro u hu
      rw [hval] at hu
      rcases List.mem_append.mp hu with hu2 | hu2
      · exact ihsub u hu2
      · exact hsub u hu2

/-- C1: for chained sequences of the iterative steps,
`get_university_programs` and `validate_programs_with_web`, the
`is_complete` flag of the resulting payload is true exactly when the set
of cumulatively processed (resp. validated) universities equals the
originally declared target set, however the calls were chunked; and any
call that re-submits an already-processed university, or that names a
university outside the declared target list, always fails. -/
theorem c1_batch_completeness :
    (∀ (sp : String → List ProgRow) (T : List String) (p : ProgPayload),
      ProgReachable sp T p →
        (p.isComplete = true ↔ ∀ u, u ∈ p.cumulativeProcessed ↔ u ∈ T)) ∧
    (∀ (sp : String → List ProgRow) (ed : ExplorePayload) (unis : List String)
        (aso : Option (List String)) (q : ProgPayload) (u : String),
      u ∈ unis → u ∈ q.cumulativeProcessed →
        stepOk (getUniversityPrograms sp ed unis aso (some q)) = false) ∧
    (∀ (sp : String → List ProgRow) (ed : ExplorePayload) (unis l : List String)
        (u : String), u ∈ unis → u ∉ l →
        stepOk (getUniversityPrograms sp ed unis (some l) none) = false) ∧
    (∀ (sp : String → List ProgRow) (ed : ExplorePayload) (unis : List String)
        (aso : Option (List String)) (q : ProgPayload) (u : String),
      u ∈ unis → u ∉ q.totalSelectedUniversities →
        stepOk (getUniversityPrograms sp ed unis aso (some q)) = false) ∧
    (∀ (dbName : Int → Option String) (E : List String) (vp : ValPayload),
      ValReachable dbName E vp →
        (vp.isComplete = true ↔ ∀ u, u ∈ vp.validatedUniversities ↔ u ∈ E)) ∧
    (∀ (dbName : Int → Option String) (wv : List (String × UniValidationInput))
        (sd : ShortlistPayload) (q : ValPayload) (u : String),
      u ∈ wv.map (fun p => p.1) → u ∈ q.validatedUniversities →
        stepOk (validateProgramsWithWeb dbName wv sd (some q)) = false) ∧
    (∀ (dbName : Int → Option String) (wv : List (String × UniValidationInput))
        (sd : ShortlistPayload) (prev : Option ValPayload) (u : String),
      u ∈ wv.map (fun p => p.1) → u ∉ expectedOf sd →
        stepOk (validateProgramsWithWeb dbName wv sd prev) = false) := by
  refine ⟨?_, ?_, ?_, ?_, ?_, ?_, ?_⟩
  · intro sp T p h
    obtain ⟨-, hsub, hic⟩ := progReachable_invariant h
    rw [hic]
    constructor
    · intro hall u
      exact ⟨fun hm => hsub u hm, fun hm => hall u hm⟩
    · intro hall u hu
      exact (hall u).mpr hu
  · intro sp ed unis aso q u hu hproc
    exact getUniversityPrograms_dup_rejected hu hproc
  · intro sp ed unis l u hu hout
    exact getUniversityPrograms_foreign_rejected_first hu hout
  · intro sp ed unis aso q u hu hout
    exact getUniversityPrograms_foreign_rejected_chain hu hout
  · intro dbName E vp h
    obtain ⟨-, hsub, hic⟩ := valReachable_invariant h
    rw [hic]
    constructor
    · intro hall u
      exact ⟨fun hm => hsub u hm, fun hm => hall u hm⟩
    · intro hall u hu
      exact (hall u).mpr hu
  · intro dbName wv sd q u hu hval
    exact validateProgramsWithWeb_dup_rejected hu hval
  · intro dbName wv sd prev u hu hout
    exact validateProgramsWithWeb_foreign_rejected hu hout

/-- Witness for C1: a two-batch fixture chain through each iterative
step, a duplicate re-submission, and a foreign university, all at
concrete inputs. -/
theorem c1_batch_completeness_witness :
    (fixP2.isComplete = true ↔ ∀ u, u ∈ fixP2.cumulativeProcessed ↔ u ∈ ["A", "B"]) ∧
    stepOk (getUniversityPrograms fixSp fixEd ["A"] none (some fixP2)) = false ∧
    stepOk (getUniversityPrograms fixSp fixEd ["Z"] (some ["A", "B"]) none) = false ∧
    stepOk (getUniversityPrograms fixSp fixEd ["Z"] none (some fixP1)) = false ∧
    (fixVp2.isComplete = true ↔ ∀ u, u ∈ fixVp2.validatedUniversities ↔ u ∈ ["A", "B"]) ∧
    stepOk (validateProgramsWithWeb fixDbName [("A", fixUval1)] fixSd2 (some fixVp1)) = false ∧
    stepOk (validateProgramsWithWeb fixDbName [("Z", fixUval1)] fixSd1 none) = false := by
  obtain ⟨t1, t2, t3, t4, t5, t6, t7⟩ := c1_batch_completeness
  have reach1 : ProgReachable fixSp ["A", "B"] fixP1 :=
    .first fixEd ["A"] fixP1 (by decide)
  have reach2 : ProgReachable fixSp ["A", "B"] fixP2 :=
    .chain fixEd ["B"] none fixP1 fixP2 reach1 (by decide)
  have vreach1 : ValReachable fixDbName ["A", "B"] fixVp1 :=
    .first [("A", fixUval1)] fixSd1 fixVp1 (by decide) (by decide)
  have vreach2 : ValReachable fixDbName ["A", "B"] fixVp2 :=
    .chain [("B", fixUval2)] fixSd2 fixVp1 fixVp2 (by decide) vreach1 (by decide)
  refine ⟨t1 fixSp ["A", "B"] fixP2 reach2, ?_, ?_, ?_,
    t5 fixDbName ["A", "B"] fixVp2 vreach2, ?_, ?_⟩
  · exact t2 fixSp fixEd ["A"] none fixP2 "A" (by decide) (by decide)
  · exact t3 fixSp fixEd ["Z"] ["A", "B"] "Z" (by decide) (by decide)
  · exact t4 fixSp fixEd ["Z"] none fixP1 "Z" (by decide) (by decide)
  · exact t6 fixDbName [("A", fixUval1)] fixSd2 fixVp1 "A" (by decide) (by decide)
  · exact t7 fixDbName [("Z", fixUval1)] fixSd1 none "Z" (by decide) (by decide)

/-- Membership in an insertion is being the inserted element or an
element of the original list. -/
theorem insertDesc_mem {x y : ScoredProgram} :
    ∀ {l : List ScoredProgram}, y ∈ insertDesc x l → y = x ∨ y ∈ l := by
  intro l
  induction l with
  | nil =>
      intro h
      simpa [insertDesc] using h
  | cons q qs ih =>
      intro h
      simp only [insertDesc] at h
      split at h
      · rcases List.mem_cons.mp h with h | h
        · exact Or.inl h
        · exact Or.inr h
      · rcases List.mem_cons.mp h with h | h
        · exact Or.inr (List.mem_cons.mpr (Or.inl h))
        · rcases ih h with h | h
          · exact Or.inl h
          · exact Or.inr (List.mem_cons.mpr (Or.inr h))

/-- Membership is preserved by the stable descending sort. -/
theorem sortDesc_mem {y : ScoredProgram} :
    ∀ {l : List ScoredProgram}, y ∈ sortDesc l → y ∈ l := by
  intro l
  induction l with
  | nil =>
      intro h
      simp [sortDesc] at h
  | cons x xs ih =>
      intro h
      simp only [sortDesc] at h
      rcases insertDesc_mem h with h | h
      · rw [h]
        exact List.mem_cons_self x xs
      · exact List.mem_cons.mpr (Or.inr (ih h))

/-- Insertion preserves the score-descending order. -/
theorem insertDesc_pairwise {x : ScoredProgram} {l : List ScoredProgram}
    (hl : l.Pairwise (fun a b => b.score ≤ a.score)) :
    (insertDesc x l).Pairwise (fun a b => b.score ≤ a.score) := by
  induction l with
  | nil => simp [insertDesc]
  | cons q qs ih =>
      simp only [insertDesc]
      rw [List.pairwise_cons] at hl
      obtain ⟨hq, hqs⟩ := hl
      split
      · rename_i hle
        refine List.pairwise_cons.mpr ⟨?_, List.pairwise_cons.mpr ⟨hq, hqs⟩⟩
        intro b hb
        rcases List.mem_cons.mp hb with rfl | hb
        · exact hle
        · exact (hq b hb).trans hle
      · rename_i hlt
        refine List.pairwise_cons.mpr ⟨?_, ih hqs⟩
        intro b hb
        rcases insertDesc_mem hb with rfl | hb
        · exact le_of_not_le hlt
        · exact hq b hb

/-- The stable descending sort produces a score-descending list. -/
theorem sortDesc_pairwise (l : List ScoredProgram) :
    (sortDesc l).Pairwise (fun a b => b.score ≤ a.score) := by
  induction l with
  | nil => simp [sortDesc]
  | cons x xs ih =>
      simp only [sortDesc]
      exact insertDesc_pairwise ih

/-- Rank assignment only changes the `rank` field. -/
theorem assignRanks_fields {x : ScoredProgram} :
    ∀ {k : Nat} {l : List ScoredProgram}, x ∈ assignRanks k l →
      ∃ y ∈ l, x.row = y.row ∧ x.score = y.score ∧
        x.reputationScore = y.reputationScore ∧ x.fitScore = y.fitScore := by
  intro k l
  induction l generalizing k with
  | nil =>
      intro h
      simp [assignRanks] at h
  | cons q qs ih =>
      intro h
      simp only [assignRanks] at h
      rcases List.mem_cons.mp h with rfl | h
      · exact ⟨q, List.mem_cons_self q qs, rfl, rfl, rfl, rfl⟩
      · obtain ⟨y, hy, hf⟩ := ih h
        exact ⟨y, List.mem_cons.mpr (Or.inr hy), hf⟩

/-- Rank assignment preserves the score-descending order. -/
theorem assignRanks_pairwise :
    ∀ {k : Nat} {l : List ScoredProgram},
      l.Pairwise (fun a b => b.score ≤ a.score) →
        (assignRanks k l).Pairwise (fun a b => b.score ≤ a.score) := by
  intro k l
  induction l generalizing k with
  | nil =>
      intro h
      simp [assignRanks]
  | cons q qs ih =>
      intro hl
      simp only [assignRanks]
      rw [List.pairwise_cons] at hl
      refine List.pairwise_cons.mpr ⟨?_, ih hl.2⟩
      intro b hb
      obtain ⟨y, hy, -, hsc, -, -⟩ := assignRanks_fields hb
      show b.score ≤ q.score
      rw [hsc]
      exact hl.1 y hy

/-- Length is preserved by rank assignment. -/
theorem assignRanks_length (k : Nat) (l : List ScoredProgram) :
    (assignRanks k l).length = l.length := by
  induction l generalizing k with
  | nil => rfl
  | cons q qs ih => simp [assignRanks, ih]

/-- The positional ranks produced by rank assignment, starting at `k`. -/
theorem assignRanks_getElem_rank (l : List ScoredProgram) :
    ∀ (k i : Nat) (h : i < (assignRanks k l).length),
      ((assignRanks k l)[i]).rank = k + i := by
  induction l with
  | nil =>
      intro k i h
      simp [assignRanks] at h
  | cons q qs ih =>
      intro k i h
      cases i with
      | zero => simp [assignRanks]
      | succ n =>
          have h2 : n < (assignRanks (k + 1) qs).length := by
            simp only [assignRanks, List.length_cons] at h
            omega
          have hg : ((assignRanks k (q :: qs))[n + 1]) = ((assignRanks (k + 1) qs)[n]) := by
            simp only [assignRanks]
            exact List.getElem_cons_succ _ _ _ _
          rw [hg, ih (k + 1) n h2]
          omega

/-- C4: a successful `score_and_rank_programs` call scores every top
program as `reputation * w_rep + fit * w_fit`, with the weight pair
selected from the fixed career-clarity table (`high` → (0.3, 0.7),
`low` → (0.7, 0.3), anything else the `medium` (0.5, 0.5) branch), a
constant fit score, and the four-tier keyword reputation heuristic; the
top list is sorted descending by score with ranks assigned by position,
and the report scale and tier sizes switch on whether at least 7
universities were validated. -/
theorem c4_score_and_rank (fetch : List Int → List ProgramRow) (vd : ValPayload)
    (rp : RankPayload) (h : scoreAndRankPrograms fetch vd = .ok rp) :
    rp.reputationWeight = reputationWeightOf vd.careerClarity ∧
    rp.fitWeight = fitWeightOf vd.careerClarity ∧
    (vd.careerClarity = "high" → rp.reputationWeight = 3 / 10 ∧ rp.fitWeight = 7 / 10) ∧
    (vd.careerClarity = "low" → rp.reputationWeight = 7 / 10 ∧ rp.fitWeight = 3 / 10) ∧
    (vd.careerClarity ≠ "high" → vd.careerClarity ≠ "low" →
      rp.reputationWeight = 1 / 2 ∧ rp.fitWeight = 1 / 2) ∧
    baseFitScore = 85 ∧
    (∀ x ∈ rp.topPrograms,
      x.fitScore = baseFitScore ∧
      x.reputationScore = estimateUniversityReputation (strLower x.row.universityName) ∧
      x.score = x.reputationScore * rp.reputationWeight + x.fitScore * rp.fitWeight) ∧
    rp.topPrograms.Pairwise (fun a b => b.score ≤ a.score) ∧
    (∀ i (hi : i < rp.topPrograms.length), (rp.topPrograms[i]).rank = i + 1) ∧
    rp.topPrograms.length ≤ rp.detailedTierCount + rp.conciseTierCount ∧
    (7 ≤ vd.totalUniversitiesValidated →
      rp.reportFormat = "TOP_20" ∧ rp.detailedTierCount = 10 ∧
        rp.conciseTierCount = 10 ∧ rp.requiredExaSearches = 30) ∧
    (vd.totalUniversitiesValidated < 7 →
      rp.reportFormat = "TOP_10" ∧ rp.detailedTierCount = 5 ∧
        rp.conciseTierCount = 0 ∧ rp.requiredExaSearches = 15) ∧
    (∀ name,
      (hasAnyKeyword topTierKeywords name = true →
        estimateUniversityReputation name = 97) ∧
      (hasAnyKeyword topTierKeywords name = false →
        hasAnyKeyword highTierKeywords name = true →
          estimateUniversityReputation name = 89) ∧
      (hasAnyKeyword topTierKeywords name = false →
        hasAnyKeyword highTierKeywords name = false →
          hasAnyKeyword midTierKeywords name = true →
            estimateUniversityReputation name = 77) ∧
      (hasAnyKeyword topTierKeywords name = false →
        hasAnyKeyword highTierKeywords name = false →
          hasAnyKeyword midTierKeywords name = false →
            estimateUniversityReputation name = 70)) := by
  have hrep : ∀ name,
      (hasAnyKeyword topTierKeywords name = true →
        estimateUniversityReputation name = 97) ∧
      (hasAnyKeyword topTierKeywords name = false →
        hasAnyKeyword highTierKeywords name = true →
          estimateUniversityReputation name = 89) ∧
      (hasAnyKeyword topTierKeywords name = false →
        hasAnyKeyword highTierKeywords name = false →
          hasAnyKeyword midTierKeywords name = true →
            estimateUniversityReputation name = 77) ∧
      (hasAnyKeyword topTierKeywords name = false →
        hasAnyKeyword highTierKeywords name = false →
          hasAnyKeyword midTierKeywords name = false →
            estimateUniversityReputation name = 70) := by
    intro name
    refine ⟨?_, ?_, ?_, ?_⟩
    · intro h1
      unfold estimateUniversityReputation
      rw [if_pos h1]
    · intro h1 h2
      unfold estimateUniversityReputation
      rw [if_neg (by simp [h1]), if_pos h2]
    · intro h1 h2 h3
      unfold estimateUniversityReputation
      rw [if_neg (by simp [h1]), if_neg (by simp [h2]), if_pos h3]
    · intro h1 h2 h3
      unfold estimateUniversityReputation
      rw [if_neg (by simp [h1]), if_neg (by simp [h2]), if_neg (by simp [h3])]
  have hmem : ∀ (K : Nat) (x : ScoredProgram),
      x ∈ (rankedPrograms vd.careerClarity (fetch vd.finalProgramIds)).take K →
        x.fitScore = baseFitScore ∧
        x.reputationScore = estimateUniversityReputation (strLower x.row.universityName) ∧
        x.score = x.reputationScore * reputationWeightOf vd.careerClarity
          + x.fitScore * fitWeightOf vd.careerClarity := by
    intro K x hx
    have hx2 := List.mem_of_mem_take hx
    unfold rankedPrograms at hx2
    obtain ⟨y, hy, hrow, hsc, hrw, hfw⟩ := assignRanks_fields hx2
    have hy2 := sortDesc_mem hy
    obtain ⟨p0, hp0, rfl⟩ := List.mem_map.mp hy2
    refine ⟨?_, ?_, ?_⟩
    · rw [hfw]
      rfl
    · rw [hrw, hrow]
      rfl
    · rw [hsc, hrw, hfw]
      rfl
  have hpair : ∀ (K : Nat),
      ((rankedPrograms vd.careerClarity (fetch vd.finalProgramIds)).take K).Pairwise
        (fun a b => b.score ≤ a.score) := by
    intro K
    exact (assignRanks_pairwise (sortDesc_pairwise _)).take
  have hrank : ∀ (K : Nat) (i : Nat)
      (hi : i < ((rankedPrograms vd.careerClarity (fetch vd.finalProgramIds)).take K).length),
      (((rankedPrograms vd.careerClarity (fetch vd.finalProgramIds)).take K)[i]).rank
        = i + 1 := by
    intro K i hi
    have hb : i < (rankedPrograms vd.careerClarity (fetch vd.finalProgramIds)).length := by
      rw [List.length_take] at hi
      omega
    rw [List.getElem_take]
    unfold rankedPrograms at hb ⊢
    rw [assignRanks_getElem_rank _ 1 i hb]
    omega
  unfold scoreAndRankPrograms at h
  split at h
  · simp at h
  · split at h
    · rename_i hic hcount
      cases h
      refine ⟨rfl, rfl, ?_, ?_, ?_, rfl, hmem 20, hpair 20, hrank 20, ?_, ?_, ?_, hrep⟩
      · intro hcl
        constructor
        · show reputationWeightOf vd.careerClarity = 3 / 10
          rw [hcl]
          unfold reputationWeightOf
          rw [if_pos rfl]
        · show fitWeightOf vd.careerClarity = 7 / 10
          rw [hcl]
          unfold fitWeightOf
          rw [if_pos rfl]
      · intro hcl
        constructor
        · show reputationWeightOf vd.careerClarity = 7 / 10
          rw [hcl]
          unfold reputationWeightOf
          rw [if_neg (by decide), if_pos rfl]
        · show fitWeightOf vd.careerClarity = 3 / 10
          rw [hcl]
          unfold fitWeightOf
          rw [if_neg (by decide), if_pos rfl]
      · intro h1 h2
        constructor
        · show reputationWeightOf vd.careerClarity = 1 / 2
          unfold reputationWeightOf
          rw [if_neg h1, if_neg h2]
        · show fitWeightOf vd.careerClarity = 1 / 2
          unfold fitWeightOf
          rw [if_neg h1, if_neg h2]
      · show (List.take 20 _).length ≤ 10 + 10
        exact (List.length_take_le 20 _).trans (by omega)
      · intro _
        exact ⟨rfl, rfl, rfl, rfl⟩
      · intro hlt
        omega
    · rename_i hic hcount
      cases h
      refine ⟨rfl, rfl, ?_, ?_, ?_, rfl, hmem 5, hpair 5, hrank 5, ?_, ?_, ?_, hrep⟩
      · intro hcl
        constructor
        · show reputationWeightOf vd.careerClarity = 3 / 10
          rw [hcl]
          unfold reputationWeightOf
          rw [if_pos rfl]
        · show fitWeightOf vd.careerClarity = 7 / 10
          rw [hcl]
          unfold fitWeightOf
          rw [if_pos rfl]
      · intro hcl
        constructor
        · show reputationWeightOf vd.careerClarity = 7 / 10
          rw [hcl]
          unfold reputationWeightOf
          rw [if_neg (by decide), if_pos rfl]
        · show fitWeightOf vd.careerClarity = 3 / 10
          rw [hcl]
          unfold fitWeightOf
          rw [if_neg (by decide), if_pos rfl]
      · intro h1 h2
        constructor
        · show reputationWeightOf vd.careerClarity = 1 / 2
          unfold reputationWeightOf
          rw [if_neg h1, if_neg h2]
        · show fitWeightOf vd.careerClarity = 1 / 2
          unfold fitWeightOf
          rw [if_neg h1, if_neg h2]
      · show (List.take 5 _).length ≤ 5 + 0
        exact (List.length_take_le 5 _).trans (by omega)
      · intro h7
        omega
      · intro _
        exact ⟨rfl, rfl, rfl, rfl⟩

/-- Witness for C4: step 6 evaluated on the complete fixture validation
payload with a high career clarity, yielding the TOP_10 scale with a
top-tier program ranked above an unrecognised one. -/
theorem c4_score_and_rank_witness :
    scoreAndRankPrograms fixFetch fixVdone = .ok fixRankResult ∧
    fixRankResult.reputationWeight = 3 / 10 ∧ fixRankResult.fitWeight = 7 / 10 ∧
    fixRankResult.topPrograms.Pairwise (fun a b => b.score ≤ a.score) ∧
    (∀ i (hi : i < fixRankResult.topPrograms.length),
      (fixRankResult.topPrograms[i]).rank = i + 1) ∧
    (∀ x ∈ fixRankResult.topPrograms,
      x.score = x.reputationScore * fixRankResult.reputationWeight
        + x.fitScore * fixRankResult.fitWeight) ∧
    fixRankResult.reportFormat = "TOP_10" ∧ fixRankResult.detailedTierCount = 5 ∧
    fixRankResult.conciseTierCount = 0 := by
  have hle : fixScored2.score ≤ fixScored1.score := by
    show (70 * (3 / 10 : ℚ) + 85 * (7 / 10)) ≤ 97 * (3 / 10) + 85 * (7 / 10)
    norm_num
  have hsort : sortDesc [fixScored1, fixScored2] = [fixScored1, fixScored2] := by
    simp only [sortDesc, insertDesc]
    rw [if_pos hle]
  have hok : scoreAndRankPrograms fixFetch fixVdone = .ok fixRankResult := by
    unfold scoreAndRankPrograms
    rw [if_neg (show ¬ ¬ (fixVdone.isComplete = true) from by decide)]
    rw [if_neg (show ¬ (7 ≤ fixVdone.totalUniversitiesValidated) from by decide)]
    unfold rankedPrograms
    rw [show (fixFetch fixVdone.finalProgramIds).map (scoreProgram fixVdone.careerClarity)
      = [fixScored1, fixScored2] from rfl]
    rw [hsort]
    rfl
  obtain ⟨w1, w2, -, -, -, -, hm, hp, hr, -, -, -, -⟩ :=
    c4_score_and_rank fixFetch fixVdone fixRankResult hok
  refine ⟨hok, ?_, ?_, hp, hr, ?_, rfl, rfl, rfl⟩
  · rw [w1]
    rfl
  · rw [w2]
    rfl
  · intro x hx
    exact (hm x hx).2.2

/-- Inversion of one accepted Tier-1 search in step 7. -/
theorem validateReportSearch_ok_spec {pid : Int} {j : Nat} {s : ExaSearch}
    (h : validateReportSearch pid j s = .ok ()) :
    s.numResults = some (expectedResultOf j) ∧
    (∃ f, s.findings = some f ∧ f ≠ "" ∧ 50 ≤ (strTrim f).length) ∧
    (∀ src, s.source = some src → src = "exa" ∨ src = "llm_knowledge") := by
  unfold validateReportSearch at h
  split at h
  · simp at h
  · rename_i actual hnr
    split at h
    · simp at h
    · rename_i hne
      have hact : actual = expectedResultOf j := not_not.mp hne
      subst hact
      split at h
      · simp at h
      · rename_i f hf
        split at h
        · simp at h
        · split at h
          · simp at h
          · rename_i hfe hlen
            split at h
            · rename_i src0 hsv
              split at h
              · rename_i hsv2
                refine ⟨hnr, ⟨f, hf, hfe, by omega⟩, ?_⟩
                intro src hsrc
                rw [hsv] at hsrc
                injection hsrc with hsrc
                subst hsrc
                exact hsv2
              · simp at h
            · rename_i hsv
              refine ⟨hnr, ⟨f, hf, hfe, by omega⟩, ?_⟩
              intro src hsrc
              rw [hsv] at hsrc
              cases hsrc

/-- Every search of an accepted Tier-1 search list passed its per-index
check. -/
theorem validateReportSearches_ok_get {pid : Int} :
    ∀ (ss : List ExaSearch) (n : Nat), validateReportSearches pid n ss = .ok () →
      ∀ j (hj : j < ss.length),
        validateReportSearch pid (n + j) (ss.get ⟨j, hj⟩) = .ok () := by
  intro ss
  induction ss with
  | nil =>
      intro n h j hj
      exact absurd hj (by simp)
  | cons s rest ih =>
      intro n h j hj
      unfold validateReportSearches at h
      split at h
      · simp at h
      · rename_i hs
        cases j with
        | zero => simpa using hs
        | succ j2 =>
            have hgoal := ih (n + 1) h j2 (by simpa using Nat.lt_of_succ_lt_succ hj)
            rw [show n + (j2 + 1) = (n + 1) + j2 from by omega]
            simpa using hgoal

/-- The first failing search of a Tier-1 search list determines the
raised error. -/
theorem validateReportSearches_first_error {pid : Int} {e : String} :
    ∀ (ss : List ExaSearch) (n j : Nat) (hj : j < ss.length),
      (∀ j2 (hj2 : j2 < j), validateReportSearch pid (n + j2)
        (ss.get ⟨j2, by omega⟩) = .ok ()) →
      validateReportSearch pid (n + j) (ss.get ⟨j, hj⟩) = .error e →
      validateReportSearches pid n ss = .error e := by
  intro ss
  induction ss with
  | nil =>
      intro n j hj
      exact absurd hj (by simp)
  | cons s rest ih =>
      intro n j hj hpre herr
      unfold validateReportSearches
      cases j with
      | zero =>
          rw [show validateReportSearch pid n s = .error e from by simpa using herr]
      | succ j2 =>
          have hs : validateReportSearch pid n s = .ok () := by
            simpa using hpre 0 (by omega)
          rw [hs]
          refine ih (n + 1) j2 (by simpa using Nat.lt_of_succ_lt_succ hj) ?_ ?_
          · intro j3 hj3
            have hx := hpre (j3 + 1) (by omega)
            rw [show (n + 1) + j3 = n + (j3 + 1) from by omega]
            simpa using hx
          · have hx := herr
            rw [show n + (j2 + 1) = (n + 1) + j2 from by omega] at hx
            simpa using hx

/-- Inversion of one accepted Tier-1 research item in step 7. -/
theorem validateDetailedProgram_ok_spec {i : Nat} {r : DetailedResearch}
    (h : validateDetailedProgram i r = .ok ()) :
    ∃ pid, r.programId = some pid ∧ pid ≠ 0 ∧ r.exaSearches.length = 3 ∧
      (∀ j (hj : j < r.exaSearches.length),
        validateReportSearch pid j (r.exaSearches.get ⟨j, hj⟩) = .ok ()) ∧
      (∀ d ∈ requiredDims, r.dimensions.contains d = true) := by
  unfold validateDetailedProgram at h
  split at h
  · simp at h
  · rename_i pid hp
    split at h
    · simp at h
    · rename_i hpid
      split at h
      · simp at h
      · rename_i hlen
        rw [not_not] at hlen
        split at h
        · simp at h
        · rename_i hv
          split at h
          · simp at h
          · rename_i hdims
            rw [not_not, List.isEmpty_iff] at hdims
            refine ⟨pid, hp, hpid, hlen, ?_, ?_⟩
            · intro j hj
              have hx := validateReportSearches_ok_get r.exaSearches 0 hv j hj
              simpa using hx
            · intro d hd
              have hx := List.filter_eq_nil_iff.mp hdims d hd
              cases hc : r.dimensions.contains d with
              | false => exact absurd (by rw [hc]; rfl) hx
              | true => rfl

/-- Every item of an accepted Tier-1 list passed the per-item check. -/
theorem validateDetailedList_ok_mem :
    ∀ (l : List DetailedResearch) (n total : Nat),
      validateDetailedList n l = .ok total →
        ∀ r ∈ l, ∃ i, validateDetailedProgram i r = .ok () := by
  intro l
  induction l with
  | nil =>
      intro n total h r hr
      simp at hr
  | cons a rest ih =>
      intro n total h r hr
      unfold validateDetailedList at h
      split at h
      · simp at h
      · rename_i ha
        split at h
        · simp at h
        · rename_i m hrest
          rcases List.mem_cons.mp hr with rfl | hr
          · exact ⟨n, ha⟩
          · exact ih (n + 1) m hrest r hr

/-- The first failing item of the Tier-1 list determines the raised
error. -/
theorem validateDetailedList_first_error {e : String} :
    ∀ (pre : List DetailedResearch) (r : DetailedResearch)
      (post : List DetailedResearch) (n : Nat),
      (∀ i (hi : i < pre.length), validateDetailedProgram (n + i) (pre.get ⟨i, hi⟩) = .ok ()) →
      validateDetailedProgram (n + pre.length) r = .error e →
      validateDetailedList n (pre ++ r :: post) = .error e := by
  intro pre
  induction pre with
  | nil =>
      intro r post n hpre herr
      show validateDetailedList n (r :: post) = .error e
      unfold validateDetailedList
      rw [show validateDetailedProgram n r = .error e from by simpa using herr]
  | cons a rest ih =>
      intro r post n hpre herr
      have ha : validateDetailedProgram n a = .ok () := by
        simpa using hpre 0 (by simp)
      have hrec : validateDetailedList (n + 1) (rest ++ r :: post) = .error e := by
        refine ih r post (n + 1) ?_ ?_
        · intro i hi
          have hx := hpre (i + 1) (by simpa using Nat.succ_lt_succ hi)
          rw [show (n + 1) + i = n + (i + 1) from by omega]
          simpa using hx
        · rw [show (n + 1) + rest.length = n + (rest.length + 1) from by omega]
          simpa using herr
      show validateDetailedList n (a :: (rest ++ r :: post)) = .error e
      unfold validateDetailedList
      rw [ha, hrec]

/-- Inversion of one accepted Tier-2 summary field in step 7. -/
theorem validateSummaryField_ok_spec {pid : Int} {fn : String} {v : Option String}
    (h : validateSummaryField pid fn v = .ok ()) :
    ∃ s, v = some s ∧ s ≠ "" ∧ 30 ≤ (strTrim s).length := by
  unfold validateSummaryField at h
  split at h
  · simp at h
  · rename_i s
    split at h
    · simp at h
    · split at h
      · simp at h
      · rename_i hne hlen
        exact ⟨s, rfl, hne, by omega⟩

/-- Inversion of one accepted Tier-2 research item in step 7. -/
theorem validateConciseProgram_ok_spec {i : Nat} {c : ConciseResearch}
    (h : validateConciseProgram i c = .ok ()) :
    ∃ pid su, c.programId = some pid ∧ pid ≠ 0 ∧ c.summary = some su ∧
      (∃ s, su.quickFacts = some s ∧ s ≠ "" ∧ 30 ≤ (strTrim s).length) ∧
      (∃ s, su.fitReasoning = some s ∧ s ≠ "" ∧ 30 ≤ (strTrim s).length) ∧
      (∃ s, su.applicationNotes = some s ∧ s ≠ "" ∧ 30 ≤ (strTrim s).length) ∧
      (∀ src, c.source = some src →
        src = "" ∨ src = "llm_knowledge" ∨ src = "exa") := by
  unfold validateConciseProgram at h
  split at h
  · simp at h
  · rename_i pid hp
    split at h
    · simp at h
    · rename_i hpid
      split at h
      · simp at h
      · rename_i su hsu
        split at h
        · simp at h
        · rename_i h1
          split at h
          · simp at h
          · rename_i h2
            split at h
            · simp at h
            · rename_i h3
              split at h
              · rename_i src0 hsv
                split at h
                · rename_i hsv2
                  refine ⟨pid, su, hp, hpid, hsu,
                    validateSummaryField_ok_spec h1,
                    validateSummaryField_ok_spec h2,
                    validateSummaryField_ok_spec h3, ?_⟩
                  intro src hsrc
                  rw [hsv] at hsrc
                  injection hsrc with hsrc
                  subst hsrc
                  exact hsv2
                · simp at h
              · rename_i hsv
                refine ⟨pid, su, hp, hpid, hsu,
                  validateSummaryField_ok_spec h1,
                  validateSummaryField_ok_spec h2,
                  validateSummaryField_ok_spec h3, ?_⟩
                intro src hsrc
                rw [hsv] at hsrc
                cases hsrc

/-- Every item of an accepted Tier-2 list passed the per-item check. -/
theorem validateConciseList_ok_mem :
    ∀ (l : List ConciseResearch) (n : Nat), validateConciseList n l = .ok () →
      ∀ c ∈ l, ∃ i, validateConciseProgram i c = .ok () := by
  intro l
  induction l with
  | nil =>
      intro n h c hc
      simp at hc
  | cons a rest ih =>
      intro n h c hc
      unfold validateConciseList at h
      split at h
      · simp at h
      · rename_i ha
        rcases List.mem_cons.mp hc with rfl | hc
        · exact ⟨n, ha⟩
        · exact ih (n + 1) h c hc

/-- Inversion of a successful `generate_final_report` call. -/
theorem generateFinalReport_ok_spec {rp : RankPayload}
    {detailed : List DetailedResearch} {concise : Option (List ConciseResearch)}
    {res : ReportResult} (h : generateFinalReport rp detailed concise = .ok res) :
    ∃ total, validateDetailedList 0 detailed = .ok total ∧
      validateConciseList 0 (concise.getD []) = .ok () ∧
      detailed.length = rp.detailedTierCount ∧ total = rp.requiredExaSearches := by
  unfold generateFinalReport at h
  split at h
  · simp at h
  · rename_i hcount
    split at h
    · simp at h
    · split at h
      · simp at h
      · split at h
        · simp at h
        · rename_i total hd
          split at h
          · simp at h
          · rename_i hc
            split at h
            · simp at h
            · rename_i htot
              rw [not_not] at htot
              refine ⟨total, hd, hc, ?_, htot⟩
              rw [not_or] at hcount
              exact not_not.mp hcount.2

/-- A Tier-1 search with the expected `num_results` but no `findings`
fails with the missing-findings message naming the search index. -/
theorem validateReportSearch_missing_findings {pid : Int} {j : Nat} {s : ExaSearch}
    (hn : s.numResults = some (expectedResultOf j)) (hf : s.findings = none) :
    validateReportSearch pid j s = .error (missingFindingsMsg pid j) := by
  unfold validateReportSearch
  split
  · rename_i hc
    rw [hn] at hc
    cases hc
  · rename_i actual ha
    rw [hn] at ha
    injection ha with ha
    subst ha
    rw [if_neg (fun hc => hc rfl)]
    split
    · rfl
    · rename_i f hfv
      rw [hf] at hfv
      cases hfv

/-- A Tier-1 item passing every check up to a search that omits
`findings` fails with the missing-findings message naming its program id
and that search's index. -/
theorem validateDetailedProgram_missing_findings {i : Nat} {r : DetailedResearch}
    {pid : Int} {j : Nat} (hj : j < r.exaSearches.length)
    (hp : r.programId = some pid) (hpid : pid ≠ 0)
    (hlen : r.exaSearches.length = 3)
    (hpre : ∀ j2 (hj2 : j2 < j),
      validateReportSearch pid j2 (r.exaSearches.get ⟨j2, by omega⟩) = .ok ())
    (hn : (r.exaSearches.get ⟨j, hj⟩).numResults = some (expectedResultOf j))
    (hf : (r.exaSearches.get ⟨j, hj⟩).findings = none) :
    validateDetailedProgram i r = .error (missingFindingsMsg pid j) := by
  have herr : validateReportSearch pid (0 + j) (r.exaSearches.get ⟨j, by omega⟩)
      = .error (missingFindingsMsg pid j) := by
    rw [Nat.zero_add]
    exact validateReportSearch_missing_findings hn hf
  have hloop : validateReportSearches pid 0 r.exaSearches
      = .error (missingFindingsMsg pid j) := by
    refine validateReportSearches_first_error r.exaSearches 0 j hj ?_ herr
    intro j2 hj2
    rw [Nat.zero_add]
    exact hpre j2 hj2
  unfold validateDetailedProgram
  split
  · rename_i hc
    rw [hp] at hc
    cases hc
  · rename_i pid2 hp2
    rw [hp] at hp2
    injection hp2 with hp2
    subst hp2
    rw [if_neg hpid, if_neg (not_not.mpr hlen), hloop]

/-- C5: the report validator of step 7 enforces, for every Tier-1 item of
an accepted submission, exactly 3 searches with the exact per-index
result counts `[4, 8, 4]`, non-empty findings of at least 50 stripped
characters for each search, and every required analysis dimension, and
for every Tier-2 item summary fields of at least 30 stripped characters;
and a Tier-1 item whose first offending search omits `findings` is
rejected with the message naming that program id and search index, an
error a full `generate_final_report` call surfaces verbatim. -/
theorem c5_report_contract :
    (∀ (rp : RankPayload) (detailed : List DetailedResearch)
        (concise : Option (List ConciseResearch)) (res : ReportResult),
      generateFinalReport rp detailed concise = .ok res →
      (∀ r ∈ detailed, ∃ pid, r.programId = some pid ∧ pid ≠ 0 ∧
        r.exaSearches.length = 3 ∧
        (∀ j (hj : j < r.exaSearches.length),
          (r.exaSearches.get ⟨j, hj⟩).numResults = some (expectedResultOf j) ∧
          ∃ f, (r.exaSearches.get ⟨j, hj⟩).findings = some f ∧ f ≠ "" ∧
            50 ≤ (strTrim f).length) ∧
        (∀ d ∈ requiredDims, r.dimensions.contains d = true)) ∧
      (∀ c ∈ concise.getD [], ∃ pid su, c.programId = some pid ∧ pid ≠ 0 ∧
        c.summary = some su ∧
        (∃ s, su.quickFacts = some s ∧ s ≠ "" ∧ 30 ≤ (strTrim s).length) ∧
        (∃ s, su.fitReasoning = some s ∧ s ≠ "" ∧ 30 ≤ (strTrim s).length) ∧
        (∃ s, su.applicationNotes = some s ∧ s ≠ "" ∧ 30 ≤ (strTrim s).length))) ∧
    (∀ (i : Nat) (r : DetailedResearch) (pid : Int) (j : Nat)
        (hj : j < r.exaSearches.length),
      r.programId = some pid → pid ≠ 0 → r.exaSearches.length = 3 →
      (∀ j2 (hj2 : j2 < j),
        validateReportSearch pid j2 (r.exaSearches.get ⟨j2, by omega⟩) = .ok ()) →
      (r.exaSearches.get ⟨j, hj⟩).numResults = some (expectedResultOf j) →
      (r.exaSearches.get ⟨j, hj⟩).findings = none →
      validateDetailedProgram i r = .error (missingFindingsMsg pid j)) ∧
    (∀ (rp : RankPayload) (detailed : List DetailedResearch) (e : String),
      detailed ≠ [] → detailed.length = rp.detailedTierCount →
      rp.conciseTierCount = 0 →
      validateDetailedList 0 detailed = .error e →
      generateFinalReport rp detailed none = .error (.contractViolation [e])) := by
  refine ⟨?_, ?_, ?_⟩
  · intro rp detailed concise res h
    obtain ⟨total, hd, hc, -, -⟩ := generateFinalReport_ok_spec h
    constructor
    · intro r hr
      obtain ⟨i, hi⟩ := validateDetailedList_ok_mem detailed 0 total hd r hr
      obtain ⟨pid, hp, hpid, hlen, hsearch, hdims⟩ := validateDetailedProgram_ok_spec hi
      refine ⟨pid, hp, hpid, hlen, ?_, hdims⟩
      intro j hj
      obtain ⟨hn, hfind, -⟩ := validateReportSearch_ok_spec (hsearch j hj)
      exact ⟨hn, hfind⟩
    · intro c hcm
      obtain ⟨i, hi⟩ := validateConciseList_ok_mem (concise.getD []) 0 hc c hcm
      obtain ⟨pid, su, hp, hpid, hsu, h1, h2, h3, -⟩ := validateConciseProgram_ok_spec hi
      exact ⟨pid, su, hp, hpid, hsu, h1, h2, h3⟩
  · intro i r pid j hj hp hpid hlen hpre hn hf
    exact validateDetailedProgram_missing_findings hj hp hpid hlen hpre hn hf
  · intro rp detailed e hne hlen hzero herr
    unfold generateFinalReport
    rw [if_neg (fun hc => hc.elim
      (fun h1 => absurd (List.isEmpty_iff.mp h1) hne) (fun h2 => h2 hlen))]
    rw [if_neg (fun hc => absurd hc.1 (by rw [hzero]; exact lt_irrefl 0))]
    rw [if_neg (fun hc => absurd hc.1 (by rw [hzero]; exact lt_irrefl 0))]
    rw [herr]

/-- Concrete step-7 runs exercising C5: a fully valid five-item Tier-1
submission is accepted, and the submission whose second item omits one
`findings` is rejected with the message naming program 102, search 1. -/
theorem c5_report_contract_witness :
    (∃ pid, (validDetailed 101).programId = some pid ∧ pid ≠ 0 ∧
      (validDetailed 101).exaSearches.length = 3 ∧
      (∀ j (hj : j < (validDetailed 101).exaSearches.length),
        ((validDetailed 101).exaSearches.get ⟨j, hj⟩).numResults
          = some (expectedResultOf j) ∧
        ∃ f, ((validDetailed 101).exaSearches.get ⟨j, hj⟩).findings = some f ∧
          f ≠ "" ∧ 50 ≤ (strTrim f).length) ∧
      (∀ d ∈ requiredDims, (validDetailed 101).dimensions.contains d = true)) ∧
    validateDetailedProgram 1 c3bad2 = .error (missingFindingsMsg 102 0) ∧
    generateFinalReport fixRank10 c5input none
      = .error (.contractViolation [missingFindingsMsg 102 0]) := by
  refine ⟨?_, ?_, ?_⟩
  · exact (c5_report_contract.1 fixRank10 fixReportInput none
      ⟨"TOP_10", 5, 0, 15⟩ (by decide)).1 (validDetailed 101) (by decide)
  · exact c5_report_contract.2.1 1 c3bad2 102 0 (by decide) rfl (by decide) (by decide)
      (fun j2 hj2 => absurd hj2 (Nat.not_lt_zero j2)) rfl rfl
  · exact c5_report_contract.2.2 fixRank10 c5input (missingFindingsMsg 102 0)
      (by decide) (by decide) rfl (by decide)

/-- A university submission without `third_round_program_ids` contributes
exactly the missing-third-round bullet. -/
theorem processUni_missing_third {dbName : Int → Option String} {uni : String}
    {v : UniValidationInput} (h : v.thirdRoundProgramIds = none) :
    (processUni dbName uni v).errors = [missingThirdRoundMsg uni] := by
  unfold processUni
  split
  · rfl
  · rename_i ids hc
    rw [h] at hc
    cases hc

/-- Every error `generate_final_report` raises carries a single message:
the step is fail-fast. -/
theorem generateFinalReport_error_shape {rp : RankPayload}
    {detailed : List DetailedResearch} {concise : Option (List ConciseResearch)}
    {e : StepError} (h : generateFinalReport rp detailed concise = .error e) :
    ∃ m, e = .contractViolation [m] := by
  unfold generateFinalReport at h
  split at h
  · injection h with h
    exact ⟨_, h.symm⟩
  · split at h
    · injection h with h
      exact ⟨_, h.symm⟩
    · split at h
      · injection h with h
        exact ⟨_, h.symm⟩
      · split at h
        · injection h with h
          exact ⟨_, h.symm⟩
        · split at h
          · injection h with h
            exact ⟨_, h.symm⟩
          · split at h
            · injection h with h
              exact ⟨_, h.symm⟩
            · cases h

/-- C3 counterexample: the `c3input` report submission violates two
independent contract rules (program 101's first search omits
`num_results`; program 102's first search omits `findings`), yet
`generate_final_report` raises an error enumerating only the first
violation. -/
theorem c3_counterexample :
    validateDetailedProgram 0 c3bad1
      = .error "Program 101, Search #1 (Tuition & Cost): missing 'num_results' field" ∧
    validateDetailedProgram 1 c3bad2 = .error (missingFindingsMsg 102 0) ∧
    generateFinalReport fixRank10 c3input none
      = .error (.contractViolation
          ["Program 101, Search #1 (Tuition & Cost): missing 'num_results' field"]) := by
  refine ⟨by decide, by decide, by decide⟩

/-- C3 (amended): only step 5 aggregates violations — a step-5 submission
in which two distinct universities each omit `third_round_program_ids`
raises one error enumerating both bullets — while `generate_final_report`
is fail-fast: every error it raises carries exactly one message. -/
theorem c3_aggregate_validation :
    (∀ (dbName : Int → Option String) (wv : List (String × UniValidationInput))
        (sd : ShortlistPayload) (prev : Option ValPayload)
        (u1 : String) (v1 : UniValidationInput)
        (u2 : String) (v2 : UniValidationInput),
      wv ≠ [] →
      (∀ u ∈ wv.map (fun p => p.1), u ∉ prevValidatedOf prev) →
      (∀ u ∈ wv.map (fun p => p.1), u ∈ expectedOf sd) →
      (u1, v1) ∈ wv → (u2, v2) ∈ wv → u1 ≠ u2 →
      v1.thirdRoundProgramIds = none → v2.thirdRoundProgramIds = none →
      ∃ es, validateProgramsWithWeb dbName wv sd prev
          = .error (.contractViolation es) ∧
        missingThirdRoundMsg u1 ∈ es ∧ missingThirdRoundMsg u2 ∈ es) ∧
    (∀ (rp : RankPayload) (detailed : List DetailedResearch)
        (concise : Option (List ConciseResearch)) (e : StepError),
      generateFinalReport rp detailed concise = .error e →
      ∃ m, e = .contractViolation [m]) := by
  constructor
  · intro dbName wv sd prev u1 v1 u2 v2 hne hprev hexp hm1 hm2 hu12 hv1 hv2
    have hmem1 : missingThirdRoundMsg u1 ∈ webErrors dbName wv := by
      unfold webErrors
      rw [List.mem_flatten]
      refine ⟨[missingThirdRoundMsg u1], ?_, List.mem_singleton.mpr rfl⟩
      rw [List.mem_map]
      exact ⟨(u1, v1), hm1, processUni_missing_third hv1⟩
    have hmem2 : missingThirdRoundMsg u2 ∈ webErrors dbName wv := by
      unfold webErrors
      rw [List.mem_flatten]
      refine ⟨[missingThirdRoundMsg u2], ?_, List.mem_singleton.mpr rfl⟩
      rw [List.mem_map]
      exact ⟨(u2, v2), hm2, processUni_missing_third hv2⟩
    have hfil1 : (wv.map (fun p => p.1)).filter
        (fun u => (prevValidatedOf prev).contains u) = [] := by
      rw [List.filter_eq_nil_iff]
      intro u hu
      exact contains_false_iff.mpr (hprev u hu) ▸ (by simp)
    have hfil2 : (wv.map (fun p => p.1)).filter
        (fun u => !((expectedOf sd).contains u)) = [] := by
      rw [List.filter_eq_nil_iff]
      intro u hu
      rw [contains_iff_mem.mpr (hexp u hu)]
      simp
    refine ⟨webErrors dbName wv, ?_, hmem1, hmem2⟩
    unfold validateProgramsWithWeb
    rw [if_neg (fun hc => hne hc)]
    rw [if_neg (not_not.mpr hfil1)]
    rw [if_neg (not_not.mpr hfil2)]
    rw [if_pos (List.ne_nil_of_mem hmem1)]
  · intro rp detailed concise e h
    exact generateFinalReport_error_shape h

/-- Concrete runs exercising the amended C3: a two-university step-5
submission with two independent missing-field violations yields one
aggregate error holding both bullets, and a concrete
`generate_final_report` error is a singleton. -/
theorem c3_aggregate_validation_witness :
    (∃ es, validateProgramsWithWeb fixDbName
        [("A", uvalNoThird), ("B", uvalNoThird)] fixSd1 none
        = .error (.contractViolation es) ∧
      missingThirdRoundMsg "A" ∈ es ∧ missingThirdRoundMsg "B" ∈ es) ∧
    (∃ m, (StepError.contractViolation
        ["Program 101, Search #1 (Tuition & Cost): missing 'num_results' field"])
      = .contractViolation [m]) := by
  constructor
  · exact c3_aggregate_validation.1 fixDbName
      [("A", uvalNoThird), ("B", uvalNoThird)] fixSd1 none
      "A" uvalNoThird "B" uvalNoThird (by decide) (by decide) (by decide)
      (by decide) (by decide) (by decide) rfl rfl
  · exact c3_aggregate_validation.2 fixRank10 c3input none _ (by decide)

/-- C6 counterexample: step 1 accepts a declared (non-skipped) web search
whose `findings` field is absent. -/
theorem c6_counterexample :
    fixSearchNoFindings.findings = none ∧
    stepOk (startConsultation none "sk_test" "background" fixTa
      (some [fixSearchNoFindings])) = true := by
  refine ⟨rfl, by decide⟩

/-- C6 (amended): only the report step enforces findings.  Step 1's
search loop never examines `findings` (overwriting the field changes no
verdict); step 5 accepts a non-skipped search without findings whenever
`query` is present and `num_results` is in range; and only step 7
requires each declared search to carry non-empty findings of at least 50
stripped characters. -/
theorem c6_findings_enforcement :
    (∀ (f : Option String) (ws : List WebSearchDecl) (i : Nat),
      checkWebSearches i (ws.map (fun s => { s with findings := f }))
        = checkWebSearches i ws) ∧
    (∀ (dbName : Int → Option String) (uni : String)
        (searches : List (String × ProgSearchInput)) (progId : Int)
        (pn : Option String) (s : SearchInput),
      alookup searches (toString progId) = some ⟨pn, some s⟩ →
      s.skipped = some false → (∃ q, s.query = some q) →
      (∃ n, s.numResults = some n ∧ 3 ≤ n ∧ n ≤ 8) →
      s.findings = none →
      processProgSearch dbName uni searches progId
        = .ok ({ programName := some (backfillName dbName progId pn),
                 search := some s }, false)) ∧
    (∀ (pid : Int) (j : Nat) (s : ExaSearch),
      validateReportSearch pid j s = .ok () →
      ∃ fd, s.findings = some fd ∧ fd ≠ "" ∧ 50 ≤ (strTrim fd).length) := by
  refine ⟨?_, ?_, ?_⟩
  · intro f ws
    induction ws with
    | nil => intro i; rfl
    | cons s rest ih =>
        intro i
        obtain ⟨q, n, fd⟩ := s
        simp only [List.map_cons, checkWebSearches]
        cases q with
        | none =>
            cases n with
            | none => rfl
            | some n => rfl
        | some q =>
            cases n with
            | none => rfl
            | some n => exact if_congr Iff.rfl (ih (i + 1)) rfl
  · intro dbName uni searches progId pn s ha hsk hq hn hf
    obtain ⟨q, hq⟩ := hq
    obtain ⟨n, hn, hn3, hn8⟩ := hn
    simp only [processProgSearch]
    split
    · rename_i hc
      rw [ha] at hc
      cases hc
    · rename_i ps hps
      rw [ha] at hps
      injection hps with hps
      subst hps
      split
      · rename_i hc
        cases hc
      · rename_i s2 hs2
        injection hs2 with hs2
        subst hs2
        split
        · rename_i hc
          rw [hsk] at hc
          cases hc
        · rename_i hc
          rw [hsk] at hc
          injection hc with hc
          cases hc
        · rename_i hc
          split
          · rename_i hc2
            rw [hq] at hc2
            cases hc2
          · rename_i q2 hq2
            split
            · rename_i hc3
              rw [hn] at hc3
              cases hc3
            · rename_i n2 hn2
              rw [hn] at hn2
              injection hn2 with hn2
              subst hn2
              rw [if_pos ⟨hn3, hn8⟩]
  · intro pid j s h
    exact (validateReportSearch_ok_spec h).2.1

/-- Concrete runs exercising the amended C6: step 5 accepts and
normalises a non-skipped search with no findings, and an accepted step-7
search always carried long findings. -/
theorem c6_findings_enforcement_witness :
    processProgSearch fixDbName "U" [("7", ⟨none, some fixNoFindSearch⟩)] 7
      = .ok ({ programName := some (backfillName fixDbName 7 none),
               search := some fixNoFindSearch }, false) ∧
    (∃ fd, fixExa1.findings = some fd ∧ fd ≠ "" ∧ 50 ≤ (strTrim fd).length) := by
  constructor
  · exact c6_findings_enforcement.2.1 fixDbName "U"
      [("7", ⟨none, some fixNoFindSearch⟩)] 7 none fixNoFindSearch
      (by decide) rfl ⟨"q7", rfl⟩ ⟨5, rfl, by decide, by decide⟩ rfl
  · exact c6_findings_enforcement.2.2 101 0 fixExa1 (by decide)

/-- An accepted step-1 call forces the lowercased `career_clarity` into
the closed enum. -/
theorem startConsultation_ok_clarity {db : Option QuotaDb}
    {apiKey background : String} {ta : TierAssessment}
    {ws : Option (List WebSearchDecl)} {p : ConsultPayload}
    (h : startConsultation db apiKey background ta ws = .ok p) :
    strLower (ta.careerClarity.getD "") = "high" ∨
    strLower (ta.careerClarity.getD "") = "medium" ∨
    strLower (ta.careerClarity.getD "") = "low" := by
  simp only [startConsultation] at h
  split at h
  · cases h
  · split at h
    · cases h
    · split at h
      · cases h
      · split at h
        · cases h
        · rename_i hcond
          exact not_not.mp hcond

/-- C7 counterexample: the casing variant `High` of a valid
`career_clarity` value is accepted by step 1 (the check lowercases the
submission first), and the Tier-2 `source` enum also accepts the empty
string. -/
theorem c7_counterexample :
    fixTaCased.careerClarity = some "High" ∧
    ¬("High" = "high" ∨ "High" = "medium" ∨ "High" = "low") ∧
    stepOk (startConsultation none "sk_test" "background" fixTaCased none) = true ∧
    ¬("" = "exa" ∨ "" = "llm_knowledge") ∧
    validateConciseProgram 0 fixConciseEmptySource = .ok () := by
  refine ⟨rfl, by decide, by decide, by decide, by decide⟩

/-- C7 (amended): the `career_clarity` gate is exact only up to
lowercasing — acceptance forces the lowercased value into
`\x7bhigh, medium, low\x7d` and any submission outside that set after
lowercasing (including whitespace variants) is rejected — while the
step-7 `source` enums are matched exactly, the Tier-2 one also
admitting the empty string. -/
theorem c7_enum_exactness :
    (∀ (db : Option QuotaDb) (apiKey background : String) (ta : TierAssessment)
        (ws : Option (List WebSearchDecl)) (p : ConsultPayload),
      startConsultation db apiKey background ta ws = .ok p →
      strLower (ta.careerClarity.getD "") = "high" ∨
      strLower (ta.careerClarity.getD "") = "medium" ∨
      strLower (ta.careerClarity.getD "") = "low") ∧
    (∀ (db : Option QuotaDb) (apiKey background : String) (ta : TierAssessment)
        (ws : Option (List WebSearchDecl)),
      ¬(strLower (ta.careerClarity.getD "") = "high" ∨
        strLower (ta.careerClarity.getD "") = "medium" ∨
        strLower (ta.careerClarity.getD "") = "low") →
      stepOk (startConsultation db apiKey background ta ws) = false) ∧
    (∀ (pid : Int) (j : Nat) (s : ExaSearch) (src : String),
      validateReportSearch pid j s = .ok () → s.source = some src →
      src = "exa" ∨ src = "llm_knowledge") ∧
    (∀ (i : Nat) (c : ConciseResearch) (src : String),
      validateConciseProgram i c = .ok () → c.source = some src →
      src = "" ∨ src = "llm_knowledge" ∨ src = "exa") := by
  refine ⟨?_, ?_, ?_, ?_⟩
  · intro db apiKey background ta ws p h
    exact startConsultation_ok_clarity h
  · intro db apiKey background ta ws hout
    cases hres : startConsultation db apiKey background ta ws with
    | error e => rfl
    | ok p => exact absurd (startConsultation_ok_clarity hres) hout
  · intro pid j s src h hsrc
    exact (validateReportSearch_ok_spec h).2.2 src hsrc
  · intro i c src h hsrc
    obtain ⟨pid, su, -, -, -, -, -, -, hsrcspec⟩ := validateConciseProgram_ok_spec h
    exact hsrcspec src hsrc

/-- Concrete runs exercising the amended C7: the accepted cased variant
has a lowered value in the enum, the whitespace variant is rejected, and
the concrete sources obey the exact sets. -/
theorem c7_enum_exactness_witness :
    (strLower (fixTaCased.careerClarity.getD "") = "high" ∨
     strLower (fixTaCased.careerClarity.getD "") = "medium" ∨
     strLower (fixTaCased.careerClarity.getD "") = "low") ∧
    stepOk (startConsultation none "sk_test" "background" fixTaSpaced none) = false ∧
    ("exa" = "exa" ∨ "exa" = "llm_knowledge") ∧
    ("" = "" ∨ "" = "llm_knowledge" ∨ "" = "exa") := by
  refine ⟨?_, ?_, ?_, ?_⟩
  · exact c7_enum_exactness.1 none "sk_test" "background" fixTaCased none
      fixConsultCased (by decide)
  · exact c7_enum_exactness.2.1 none "sk_test" "background" fixTaSpaced none
      (by decide)
  · exact c7_enum_exactness.2.2.1 101 0 fixExa1 "exa" (by decide) rfl
  · exact c7_enum_exactness.2.2.2 0 fixConciseEmptySource "" (by decide) rfl

/-- Python `\x7b**a, **b\x7d` with an empty first dict is the second dict. -/
theorem dictMerge_nil {β : Type} (b : List (String × β)) : dictMerge [] b = b := by
  unfold dictMerge
  simp [alookup]

/-- C8: omitted optional step-5 fields are defaulted, not rejected: a
non-skipped search without `num_results` is accepted with `num_results`
5 in the normalised entry; a skipped search without `known_info` gets
the auto-generated text; an omitted or empty `program_name` is
back-filled from the database lookup; and a first-batch acceptance
surfaces exactly the normalised entries in the minted payload. -/
theorem c8_default_backfill :
    (∀ (dbName : Int → Option String) (uni : String)
        (searches : List (String × ProgSearchInput)) (progId : Int)
        (pn : Option String) (s : SearchInput),
      alookup searches (toString progId) = some ⟨pn, some s⟩ →
      s.skipped = some false → (∃ q, s.query = some q) → s.numResults = none →
      processProgSearch dbName uni searches progId
        = .ok ({ programName := some (backfillName dbName progId pn),
                 search := some { s with numResults := some 5 } }, false)) ∧
    (∀ (dbName : Int → Option String) (uni : String)
        (searches : List (String × ProgSearchInput)) (progId : Int)
        (pn : Option String) (s : SearchInput),
      alookup searches (toString progId) = some ⟨pn, some s⟩ →
      s.skipped = some true → s.knownInfo = none →
      processProgSearch dbName uni searches progId
        = .ok ({ programName := some (backfillName dbName progId pn),
                 search := some { s with
                   knownInfo := some (autoKnownInfo (backfillName dbName progId pn)) } },
               true)) ∧
    (∀ (dbName : Int → Option String) (progId : Int),
      backfillName dbName progId none
        = (dbName progId).getD ("Program " ++ toString progId) ∧
      backfillName dbName progId (some "")
        = (dbName progId).getD ("Program " ++ toString progId) ∧
      ∀ n, n ≠ "" → backfillName dbName progId (some n) = n) ∧
    (∀ (dbName : Int → Option String) (wv : List (String × UniValidationInput))
        (sd : ShortlistPayload) (vp : ValPayload),
      validateProgramsWithWeb dbName wv sd none = .ok vp →
      vp.webValidations = webUpdated dbName wv) := by
  refine ⟨?_, ?_, ?_, ?_⟩
  · intro dbName uni searches progId pn s ha hsk hq hnone
    obtain ⟨q, hq⟩ := hq
    simp only [processProgSearch]
    split
    · rename_i hc
      rw [ha] at hc
      cases hc
    · rename_i ps hps
      rw [ha] at hps
      injection hps with hps
      subst hps
      split
      · rename_i hc
        cases hc
      · rename_i s2 hs2
        injection hs2 with hs2
        subst hs2
        split
        · rename_i hc
          rw [hsk] at hc
          cases hc
        · rename_i hc
          rw [hsk] at hc
          injection hc with hc
          cases hc
        · rename_i hc
          split
          · rename_i hc2
            rw [hq] at hc2
            cases hc2
          · rename_i q2 hq2
            split
            · rfl
            · rename_i n2 hn2
              rw [hnone] at hn2
              cases hn2
  · intro dbName uni searches progId pn s ha hsk hki
    simp only [processProgSearch]
    split
    · rename_i hc
      rw [ha] at hc
      cases hc
    · rename_i ps hps
      rw [ha] at hps
      injection hps with hps
      subst hps
      split
      · rename_i hc
        cases hc
      · rename_i s2 hs2
        injection hs2 with hs2
        subst hs2
        split
        · rename_i hc
          rw [hsk] at hc
          cases hc
        · rw [hki]
        · rename_i hc
          rw [hsk] at hc
          injection hc with hc
          cases hc
  · intro dbName progId
    refine ⟨rfl, ?_, ?_⟩
    · simp [backfillName]
    · intro n hn
      simp [backfillName, hn]
  · intro dbName wv sd vp h
    rw [(validateProgramsWithWeb_ok_spec h).2.2.2.2.2.1]
    exact dictMerge_nil _

/-- Concrete step-5 runs exercising C8: the defaults submission is
accepted with the defaulted, back-filled, auto-generated entries in the
minted payload. -/
theorem c8_default_backfill_witness :
    processProgSearch fixDbName "U" (fixUval8.programSearches.getD []) 7
      = .ok ({ programName := some (backfillName fixDbName 7 none),
               search := some { fix8S7 with numResults := some 5 } }, false) ∧
    processProgSearch fixDbName "U" (fixUval8.programSearches.getD []) 9
      = .ok ({ programName := some (backfillName fixDbName 9 none),
               search := some { fix8S9 with
                 knownInfo := some (autoKnownInfo (backfillName fixDbName 9 none)) } },
             true) ∧
    backfillName fixDbName 7 none
      = (fixDbName 7).getD ("Program " ++ toString (7 : Int)) ∧
    fixVp8.webValidations = webUpdated fixDbName [("U", fixUval8)] := by
  refine ⟨?_, ?_, ?_, ?_⟩
  · exact c8_default_backfill.1 fixDbName "U" (fixUval8.programSearches.getD [])
      7 none fix8S7 (by decide) rfl ⟨"q7", rfl⟩ rfl
  · exact c8_default_backfill.2.1 fixDbName "U" (fixUval8.programSearches.getD [])
      9 none fix8S9 (by decide) rfl rfl
  · exact (c8_default_backfill.2.2.1 fixDbName 7).1
  · exact c8_default_backfill.2.2.2 fixDbName [("U", fixUval8)] fixSd8 fixVp8
      (by decide)

/-- C9 counterexample: with the quota collaborator unavailable, the
quota gate passes and step 1 still proceeds — quota enforcement fails
open, not closed (`except Exception: pass  # fail-open` in the source). -/
theorem c9_counterexample :
    quotaGate none "sk_test" = .ok () ∧
    stepOk (startConsultation none "sk_test" "background" fixTa none) = true := by
  refine ⟨rfl, by decide⟩

/-- C9 (amended): both the quota gate and the usage-metering hook fail
open.  An unavailable collaborator makes the quota gate a no-op for
every key; when the collaborator is available the gate does reject an
active non-super key at the monthly limit; and `_internal_track_usage`
returns the empty string on every input, never aborting a step. -/
theorem c9_quota_failopen :
    (∀ apiKey, quotaGate none apiKey = .ok ()) ∧
    (∀ (d : QuotaDb) (apiKey : String) (row : ApiKeyRow),
      d.keys apiKey = some row → row.isActive = true → row.isSuperKey = false →
      freeConsultationLimit ≤ d.usage row.userId →
      quotaGate (some d) apiKey
        = .error (.contractViolation ["MONTHLY QUOTA EXCEEDED"])) ∧
    (∀ (db : Option QuotaDb) (apiKey : String),
      ∃ db2, internalTrackUsage db apiKey = .ok ("", db2)) := by
  refine ⟨?_, ?_, ?_⟩
  · intro apiKey
    rfl
  · intro d apiKey row hk hact hsuper husage
    simp only [quotaGate]
    split
    · rename_i hc
      rw [hk] at hc
      cases hc
    · rename_i row2 hr2
      rw [hk] at hr2
      injection hr2 with hr2
      subst hr2
      rw [if_neg (not_not.mpr hact)]
      rw [if_neg (fun hc => by rw [hsuper] at hc; cases hc)]
      rw [if_pos husage]
  · intro db apiKey
    unfold internalTrackUsage
    split
    · exact ⟨db, rfl⟩
    · split
      · exact ⟨none, rfl⟩
      · split
        · exact ⟨_, rfl⟩
        · split
          · exact ⟨_, rfl⟩
          · split
            · exact ⟨_, rfl⟩
            · exact ⟨_, rfl⟩

/-- Concrete quota-collaborator runs exercising the amended C9: the gate
passes with no collaborator, rejects a key at the limit, and the
metering hook returns the empty string either way. -/
theorem c9_quota_failopen_witness :
    quotaGate none "sk_absent" = .ok () ∧
    quotaGate (some fixQuotaDb) "sk_full"
      = .error (.contractViolation ["MONTHLY QUOTA EXCEEDED"]) ∧
    (∃ db2, internalTrackUsage (some fixQuotaDb) "sk_ok" = .ok ("", db2)) := by
  refine ⟨?_, ?_, ?_⟩
  · exact c9_quota_failopen.1 "sk_absent"
  · exact c9_quota_failopen.2.1 fixQuotaDb "sk_full" ⟨"user_full", false, true⟩
      rfl rfl rfl (by decide)
  · exact c9_quota_failopen.2.2 (some fixQuotaDb) "sk_ok"

end OfferI
